import Mathlib

/-! Smart agriculture frontend: request orchestration and view state.

A shallow embedding of the React pages `SoilRecommendation.jsx`,
`DiseaseDetection.jsx`, `WeatherAdvisory.jsx`, `Dashboard.jsx` and of the
gateway module `services/api.js`.

* JavaScript values are an explicit datatype (`JSValue`).
* Every `useState` cell of a page is a field of that page's state record.
* An `async` handler is split at its `await`: the part that runs
  synchronously returns the new state together with the gateway calls it
  issued; the continuation (`...Settled`) takes the outcome of the awaited
  promise and the state current at that moment.
* A page together with its outstanding promises is a small transition system
  (`step`, `run`), used for the claims about interleavings.
* The guards the markup puts before a handler (the constraint validation of
  the soil form, the submit buttons disabled while `loading`) are
  `requestSubmit` and `stepPage`, `runPage`.
* Rendering of the dashboard is a function to `Option`, where `none` is a
  render that throws.
-/

namespace SmartAgri

/-! ## JavaScript values -/

/-- JavaScript Number values. The term `fin q` is the Number with mathematical
value `q`; rounding to a binary64 is not modelled and the two zeros are
identified. -/
inductive JSNumber where
  | nan
  | fin (q : ℚ)
  | inf (negative : Bool)
  deriving DecidableEq

/-- JavaScript values, as far as the pages handle them. An object is the list
of its own properties in insertion order. -/
inductive JSValue where
  | undefined
  | null
  | bool (b : Bool)
  | number (n : JSNumber)
  | string (s : String)
  | array (items : List JSValue)
  | object (props : List (String × JSValue))

instance : Inhabited JSValue := ⟨JSValue.undefined⟩

/-- ToBoolean: what `if (v)`, `!v`, `v || w` and `v && w` test. -/
def JSValue.truthy : JSValue → Bool
  | .undefined => false
  | .null => false
  | .bool b => b
  | .number .nan => false
  | .number (.fin q) => decide (q ≠ 0)
  | .number (.inf _) => true
  | .string s => decide (s ≠ "")
  | .array _ => true
  | .object _ => true

/-- The JavaScript expression `a || b`. -/
def JSValue.or (a b : JSValue) : JSValue :=
  if a.truthy then a else b

/-- Is the value `null` or `undefined` (what `?.` short-circuits on). -/
def JSValue.isNullish : JSValue → Bool
  | .undefined => true
  | .null => true
  | _ => false

/-- Property read `v.key` on a value that is not nullish: an own property of
an object, `undefined` otherwise. -/
def JSValue.get (v : JSValue) (key : String) : JSValue :=
  match v with
  | .object props => (props.lookup key).getD .undefined
  | _ => .undefined

/-- Optional chaining `v?.key`. -/
def JSValue.optGet (v : JSValue) (key : String) : JSValue :=
  if v.isNullish then .undefined else v.get key

/-- Property write `o.key = x` on an object: replaces the property in place
when present, appends it otherwise. -/
def setProp (props : List (String × JSValue)) (key : String) (x : JSValue) :
    List (String × JSValue) :=
  if props.any (fun p => p.1 == key) then
    props.map (fun p => if p.1 == key then (key, x) else p)
  else props ++ [(key, x)]

/-! ## Strings: `trim` and `parseFloat` -/

/-- WhiteSpace and LineTerminator code points of ECMAScript, the characters
removed by `String.prototype.trim` and skipped by `parseFloat`. -/
def isJSWhiteSpace (c : Char) : Bool :=
  let n := c.toNat
  n == 9 || n == 10 || n == 11 || n == 12 || n == 13 || n == 32 || n == 160 ||
  n == 0x1680 || (0x2000 ≤ n && n ≤ 0x200A) || n == 0x2028 || n == 0x2029 ||
  n == 0x202F || n == 0x205F || n == 0x3000 || n == 0xFEFF

/-- Remove leading white space. -/
def trimStartChars (cs : List Char) : List Char :=
  cs.dropWhile isJSWhiteSpace

/-- Remove trailing white space. -/
def trimEndChars (cs : List Char) : List Char :=
  (cs.reverse.dropWhile isJSWhiteSpace).reverse

/-- The method `String.prototype.trim`. -/
def jsTrim (s : String) : String :=
  String.mk (trimEndChars (trimStartChars s.data))

/-- Decimal digit test. -/
def isDecimalDigit (c : Char) : Bool :=
  48 ≤ c.toNat && c.toNat ≤ 57

/-- Value of a run of decimal digits. -/
def digitsValue (ds : List Char) : Nat :=
  ds.foldl (fun n c => 10 * n + (c.toNat - 48)) 0

/-- What the longest `StrDecimalLiteral` prefix of a string denotes. -/
inductive DecimalScan where
  | noMatch
  | infinity (negative : Bool)
  | decimal (negative : Bool) (mantissa : Nat) (exponent : Int)
  deriving DecidableEq

/-- The `ExponentPart` at the head of `cs`, when there is a complete one
(`e` or `E`, an optional sign, at least one digit); `0` otherwise. -/
def scanExponent (cs : List Char) : Int :=
  match cs with
  | [] => 0
  | c :: rest =>
    if c = 'e' ∨ c = 'E' then
      match rest with
      | [] => 0
      | d :: more =>
        if d = '-' then
          -((digitsValue (more.takeWhile isDecimalDigit) : Nat) : Int)
        else if d = '+' then
          ((digitsValue (more.takeWhile isDecimalDigit) : Nat) : Int)
        else
          ((digitsValue (rest.takeWhile isDecimalDigit) : Nat) : Int)
    else 0

/-- Longest `StrUnsignedDecimalLiteral` prefix: `Infinity`, or digits with an
optional fraction and exponent, or a fraction starting with the dot. -/
def scanUnsigned (negative : Bool) (cs : List Char) : DecimalScan :=
  if cs.take 8 = ['I', 'n', 'f', 'i', 'n', 'i', 't', 'y'] then .infinity negative
  else
    let ip := cs.takeWhile isDecimalDigit
    let r1 := cs.dropWhile isDecimalDigit
    match r1 with
    | '.' :: r2 =>
      let fp := r2.takeWhile isDecimalDigit
      let r3 := r2.dropWhile isDecimalDigit
      if ip.isEmpty && fp.isEmpty then .noMatch
      else .decimal negative (digitsValue (ip ++ fp)) (scanExponent r3 - (fp.length : Int))
    | _ =>
      if ip.isEmpty then .noMatch
      else .decimal negative (digitsValue ip) (scanExponent r1)

/-- Longest `StrDecimalLiteral` prefix: an optional sign, then the unsigned
literal. -/
def scanDecimal (cs : List Char) : DecimalScan :=
  match cs with
  | '+' :: rest => scanUnsigned false rest
  | '-' :: rest => scanUnsigned true rest
  | _ => scanUnsigned false cs

/-- The Number a scan denotes. -/
def DecimalScan.toNumber : DecimalScan → JSNumber
  | .noMatch => .nan
  | .infinity negative => .inf negative
  | .decimal negative mantissa exponent =>
    .fin ((if negative then -1 else 1) * (mantissa : ℚ) * (10 : ℚ) ^ exponent)

/-- The global function `parseFloat` applied to a string: leading white space
is skipped, the longest prefix that is a decimal literal is converted, and
`NaN` is returned when there is none. -/
def parseFloat (s : String) : JSNumber :=
  (scanDecimal (trimStartChars s.data)).toNumber

/-! ## The gateway: `services/api.js` -/

/-- A browser `File`: the declared content type is the field `type`. -/
structure File where
  name : String
  type : String
  size : Nat
  deriving DecidableEq

/-- Body of an HTTP request. -/
inductive HttpBody where
  | none
  | json (data : JSValue)
  | formData (entries : List (String × File))

/-- An HTTP request handed to the axios instance `api`. -/
structure HttpRequest where
  method : String
  url : String
  params : List (String × JSValue)
  body : HttpBody
  contentType : String

/-- An axios response. -/
structure AxiosResponse where
  status : Nat
  data : JSValue

/-- The reason an axios promise rejects with; `response` is absent when no
response was received. -/
structure AxiosError where
  response : Option AxiosResponse

/-- What a promise returned by a gateway function settles with. -/
abbrev Outcome := Except AxiosError JSValue

/-- Every gateway function ends with `return response.data`: its promise
resolves with the body of the response, and rejects with the reason of the
transport when `api.get` or `api.post` rejects. -/
def responseData (t : Except AxiosError AxiosResponse) : Outcome :=
  match t with
  | .ok response => .ok response.data
  | .error err => .error err

/-- Request issued by `predictDisease(imageFile)`. -/
def predictDisease (imageFile : File) : HttpRequest :=
  { method := "POST", url := "/predict/disease", params := [],
    body := .formData [("file", imageFile)], contentType := "multipart/form-data" }

/-- Request issued by `predictSoilRecommendation(soilData)`. -/
def predictSoilRecommendation (soilData : JSValue) : HttpRequest :=
  { method := "POST", url := "/predict/soil", params := [],
    body := .json soilData, contentType := "application/json" }

/-- Request issued by `getWeatherAdvisory(location)`. -/
def getWeatherAdvisory (location : JSValue) : HttpRequest :=
  { method := "GET", url := "/predict/weather", params := [("location", location)],
    body := .none, contentType := "application/json" }

/-- A default parameter value: it replaces an argument that is `undefined`. -/
def withDefault (arg dflt : JSValue) : JSValue :=
  match arg with
  | .undefined => dflt
  | v => v

/-- The object `params` built by `getPredictionHistory`. -/
def historyParams (predictionType limit : JSValue) : List (String × JSValue) :=
  let predictionType := withDefault predictionType .null
  let limit := withDefault limit (.number (.fin 50))
  let params := [("limit", limit)]
  if predictionType.truthy then setProp params "prediction_type" predictionType
  else params

/-- Request issued by `getPredictionHistory(predictionType = null, limit = 50)`. -/
def getPredictionHistory (predictionType limit : JSValue) : HttpRequest :=
  { method := "GET", url := "/predict/history", params := historyParams predictionType limit,
    body := .none, contentType := "application/json" }

/-- Request issued by `getStatistics()`. -/
def getStatistics : HttpRequest :=
  { method := "GET", url := "/predict/statistics", params := [],
    body := .none, contentType := "application/json" }

/-- A call of a gateway function made by a page. -/
inductive GatewayCall where
  | predictDisease (imageFile : File)
  | predictSoilRecommendation (soilData : JSValue)
  | getWeatherAdvisory (location : JSValue)
  | getPredictionHistory (predictionType limit : JSValue)
  | getStatistics

/-- The HTTP request a gateway call issues. -/
def GatewayCall.request : GatewayCall → HttpRequest
  | .predictDisease imageFile => SmartAgri.predictDisease imageFile
  | .predictSoilRecommendation soilData => SmartAgri.predictSoilRecommendation soilData
  | .getWeatherAdvisory location => SmartAgri.getWeatherAdvisory location
  | .getPredictionHistory predictionType limit =>
    SmartAgri.getPredictionHistory predictionType limit
  | .getStatistics => SmartAgri.getStatistics

/-- The expression `err.response?.data?.detail || fallback` of the three
`catch` blocks. -/
def errorMessage (err : AxiosError) (fallback : String) : JSValue :=
  let detail :=
    match err.response with
    | none => JSValue.undefined
    | some response => response.data.optGet "detail"
  detail.or (.string fallback)

/-- A page with its outstanding awaits. The list `pending` holds one entry per
promise a handler is suspended on, oldest first; `calls` logs every gateway
call issued so far, oldest first. -/
structure Sys (σ κ : Type) where
  view : σ
  pending : List κ
  calls : List GatewayCall

/-! ## `pages/SoilRecommendation.jsx` -/

namespace SoilRecommendation

/-- The `formData` cell: five text fields. -/
structure FormData where
  nitrogen : String
  phosphorus : String
  potassium : String
  ph : String
  rainfall : String
  deriving DecidableEq

/-- The `useState` cells of the page. -/
structure State where
  formData : FormData
  prediction : JSValue
  loading : Bool
  error : JSValue

/-- The form of the first render and of `handleReset`. -/
def emptyForm : FormData :=
  { nitrogen := "", phosphorus := "", potassium := "", ph := "", rainfall := "" }

/-- State of the first render. -/
def init : State :=
  { formData := emptyForm, prediction := .null, loading := false, error := .null }

/-- The update `{ ...prev, [name]: value }` for the five input names; another
name adds a property that nothing reads. -/
def FormData.set (prev : FormData) (name value : String) : FormData :=
  if name = "nitrogen" then { prev with nitrogen := value }
  else if name = "phosphorus" then { prev with phosphorus := value }
  else if name = "potassium" then { prev with potassium := value }
  else if name = "ph" then { prev with ph := value }
  else if name = "rainfall" then { prev with rainfall := value }
  else prev

/-- The handler `handleChange` for an event with `e.target = { name, value }`. -/
def handleChange (name value : String) (s : State) : State :=
  { s with formData := s.formData.set name value, error := .null }

/-- The object `data` built inside `handleSubmit`. -/
def soilData (formData : FormData) : JSValue :=
  .object [("nitrogen", .number (parseFloat formData.nitrogen)),
           ("phosphorus", .number (parseFloat formData.phosphorus)),
           ("potassium", .number (parseFloat formData.potassium)),
           ("ph", .number (parseFloat formData.ph)),
           ("rainfall", .number (parseFloat formData.rainfall))]

/-- The handler `handleSubmit` up to its `await`: the new state and the
gateway calls issued. -/
def handleSubmit (s : State) : State × List GatewayCall :=
  ({ s with loading := true, error := .null },
   [.predictSoilRecommendation (soilData s.formData)])

/-- The handler `handleSubmit` after its `await`, on the state current when
the promise settles. -/
def handleSubmitSettled (o : Outcome) (s : State) : State :=
  match o with
  | .ok result => { s with prediction := result, loading := false }
  | .error err =>
    { s with error := errorMessage err "Failed to get recommendation. Please try again.",
             loading := false }

/-- The handler `handleReset`. -/
def handleReset (s : State) : State :=
  { s with formData := emptyForm, prediction := .null, error := .null }

/-- Handler invocations and promise settlements of the page. -/
inductive Event where
  | change (name value : String)
  | submit
  | reset
  | settle (k : Nat) (o : Outcome)

/-- One event. The event `settle k o` resumes the handler suspended on the
promise at position `k` of `pending` and is not enabled when there is none. -/
def step (sys : Sys State Unit) : Event → Option (Sys State Unit)
  | .change name value => some { sys with view := handleChange name value sys.view }
  | .submit =>
    let r := handleSubmit sys.view
    some { view := r.1, pending := sys.pending ++ r.2.map (fun _ => ()),
           calls := sys.calls ++ r.2 }
  | .reset => some { sys with view := handleReset sys.view }
  | .settle k o =>
    match sys.pending.get? k with
    | none => none
    | some _ =>
      some { sys with view := handleSubmitSettled o sys.view,
                      pending := sys.pending.eraseIdx k }

/-- A sequence of events. -/
def run (sys : Sys State Unit) : List Event → Option (Sys State Unit)
  | [] => some sys
  | e :: es => (step sys e).bind (fun t => run t es)

/-- The page right after its first render. -/
def start : Sys State Unit :=
  { view := init, pending := [], calls := [] }

/-- Closed range test on a Number: `NaN` and the infinities lie in no range. -/
def inRange (lo hi : ℚ) : JSNumber → Prop
  | .fin q => lo ≤ q ∧ q ≤ hi
  | _ => False

/-- Every parsed field lies in its declared closed range. -/
def FieldsInRange (formData : FormData) : Prop :=
  inRange 0 200 (parseFloat formData.nitrogen) ∧
  inRange 0 200 (parseFloat formData.phosphorus) ∧
  inRange 0 200 (parseFloat formData.potassium) ∧
  inRange 0 14 (parseFloat formData.ph) ∧
  inRange 0 500 (parseFloat formData.rainfall)

end SoilRecommendation

/-! ## `pages/DiseaseDetection.jsx` -/

namespace DiseaseDetection

/-- The `useState` cells of the page. -/
structure State where
  selectedImage : Option File
  imagePreview : Option String
  prediction : JSValue
  loading : Bool
  error : JSValue

/-- State of the first render. -/
def init : State :=
  { selectedImage := none, imagePreview := none, prediction := .null, loading := false,
    error := .null }

/-- The test `file.type.startsWith('image/')`. -/
def isImageType (file : File) : Bool :=
  ("image/".data).isPrefixOf file.type.data

/-- The handler `handleImageSelect` for an event with `e.target.files = files`;
`objectUrl` is what `URL.createObjectURL(file)` returns when it is called. -/
def handleImageSelect (files : List File) (objectUrl : String) (s : State) : State :=
  match files.head? with
  | none => s
  | some file =>
    if !isImageType file then
      { s with error := .string "Please select a valid image file" }
    else
      { s with selectedImage := some file, imagePreview := some objectUrl,
               prediction := .null, error := .null }

/-- The handler `handleSubmit` up to its `await` (or up to its early
`return`): the new state and the gateway calls issued. -/
def handleSubmit (s : State) : State × List GatewayCall :=
  match s.selectedImage with
  | none => ({ s with error := .string "Please select an image first" }, [])
  | some image => ({ s with loading := true, error := .null }, [.predictDisease image])

/-- The handler `handleSubmit` after its `await`, on the state current when
the promise settles. -/
def handleSubmitSettled (o : Outcome) (s : State) : State :=
  match o with
  | .ok result => { s with prediction := result, loading := false }
  | .error err =>
    { s with error := errorMessage err "Failed to analyze image. Please try again.",
             loading := false }

/-- The handler `handleReset`. -/
def handleReset (s : State) : State :=
  { s with selectedImage := none, imagePreview := none, prediction := .null, error := .null }

/-- Handler invocations and promise settlements of the page. -/
inductive Event where
  | selectImage (files : List File) (objectUrl : String)
  | submit
  | reset
  | settle (k : Nat) (o : Outcome)

/-- One event. The event `settle k o` resumes the handler suspended on the
promise at position `k` of `pending` and is not enabled when there is none. -/
def step (sys : Sys State Unit) : Event → Option (Sys State Unit)
  | .selectImage files objectUrl =>
    some { sys with view := handleImageSelect files objectUrl sys.view }
  | .submit =>
    let r := handleSubmit sys.view
    some { view := r.1, pending := sys.pending ++ r.2.map (fun _ => ()),
           calls := sys.calls ++ r.2 }
  | .reset => some { sys with view := handleReset sys.view }
  | .settle k o =>
    match sys.pending.get? k with
    | none => none
    | some _ =>
      some { sys with view := handleSubmitSettled o sys.view,
                      pending := sys.pending.eraseIdx k }

/-- A sequence of events. -/
def run (sys : Sys State Unit) : List Event → Option (Sys State Unit)
  | [] => some sys
  | e :: es => (step sys e).bind (fun t => run t es)

/-- The page right after its first render. -/
def start : Sys State Unit :=
  { view := init, pending := [], calls := [] }

end DiseaseDetection

/-! ## `pages/WeatherAdvisory.jsx` -/

namespace WeatherAdvisory

/-- The `useState` cells of the page. -/
structure State where
  location : String
  weather : JSValue
  loading : Bool
  error : JSValue

/-- State of the first render. -/
def init : State :=
  { location := "Delhi", weather := .null, loading := false, error := .null }

/-- The `onChange` handler of the text input: `setLocation(e.target.value)`. -/
def changeLocation (value : String) (s : State) : State :=
  { s with location := value }

/-- The handler `handleSubmit` up to its `await` (or up to its early
`return`): the new state and the gateway calls issued. -/
def handleSubmit (s : State) : State × List GatewayCall :=
  if !(JSValue.string (jsTrim s.location)).truthy then
    ({ s with error := .string "Please enter a location" }, [])
  else
    ({ s with loading := true, error := .null }, [.getWeatherAdvisory (.string s.location)])

/-- The handler `handleSubmit` after its `await`, on the state current when
the promise settles. -/
def handleSubmitSettled (o : Outcome) (s : State) : State :=
  match o with
  | .ok result => { s with weather := result, loading := false }
  | .error err =>
    { s with error := errorMessage err "Failed to fetch weather data. Please try again.",
             loading := false }

/-- The handler `selectCity` up to its `await`. -/
def selectCity (city : String) (s : State) : State × List GatewayCall :=
  ({ s with location := city, loading := true, error := .null },
   [.getWeatherAdvisory (.string city)])

/-- The handler `selectCity` after its `await`, on the state current when the
promise settles. -/
def selectCitySettled (o : Outcome) (s : State) : State :=
  match o with
  | .ok result => { s with weather := result, loading := false }
  | .error err =>
    { s with error := errorMessage err "Failed to fetch weather data. Please try again.",
             loading := false }

/-- Which handler is suspended on a promise. -/
inductive Task where
  | handleSubmit
  | selectCity
  deriving DecidableEq

/-- The continuation of a suspended handler. -/
def Task.settled : Task → Outcome → State → State
  | .handleSubmit => handleSubmitSettled
  | .selectCity => selectCitySettled

/-- Handler invocations and promise settlements of the page. -/
inductive Event where
  | changeLocation (value : String)
  | submit
  | selectCity (city : String)
  | settle (k : Nat) (o : Outcome)

/-- One event. The event `settle k o` resumes the handler suspended on the
promise at position `k` of `pending` and is not enabled when there is none. -/
def step (sys : Sys State Task) : Event → Option (Sys State Task)
  | .changeLocation value => some { sys with view := changeLocation value sys.view }
  | .submit =>
    let r := handleSubmit sys.view
    some { view := r.1, pending := sys.pending ++ r.2.map (fun _ => Task.handleSubmit),
           calls := sys.calls ++ r.2 }
  | .selectCity city =>
    let r := selectCity city sys.view
    some { view := r.1, pending := sys.pending ++ r.2.map (fun _ => Task.selectCity),
           calls := sys.calls ++ r.2 }
  | .settle k o =>
    match sys.pending.get? k with
    | none => none
    | some task =>
      some { sys with view := task.settled o sys.view,
                      pending := sys.pending.eraseIdx k }

/-- A sequence of events. -/
def run (sys : Sys State Task) : List Event → Option (Sys State Task)
  | [] => some sys
  | e :: es => (step sys e).bind (fun t => run t es)

/-- The page right after its first render. -/
def start : Sys State Task :=
  { view := init, pending := [], calls := [] }

end WeatherAdvisory

/-! ## `pages/Dashboard.jsx` -/

namespace Dashboard

/-- The `useState` cells of the page. -/
structure State where
  history : JSValue
  statistics : JSValue
  loading : Bool
  filter : String
  error : JSValue

/-- State of the first render. -/
def init : State :=
  { history := .array [], statistics := .null, loading := true, filter := "all",
    error := .null }

/-- The function `fetchData` up to its `await`: the new state and the two
gateway calls handed to `Promise.all`, in order. -/
def fetchData (s : State) : State × List GatewayCall :=
  ({ s with loading := true, error := .null },
   [.getPredictionHistory (if s.filter = "all" then .null else .string s.filter)
      (.number (.fin 50)),
    .getStatistics])

/-- The promise `Promise.all([h, st])` once it settles: it resolves with both
values when both promises resolve, and rejects with the reason of the promise
that rejected first; `historyFirst` tells which of the two settled first. -/
def promiseAll (h st : Outcome) (historyFirst : Bool) : Except AxiosError (JSValue × JSValue) :=
  match h, st with
  | .ok historyData, .ok statsData => .ok (historyData, statsData)
  | .error err, .ok _ => .error err
  | .ok _, .error err => .error err
  | .error errH, .error errS => .error (if historyFirst then errH else errS)

/-- The function `fetchData` after its `await`, on the state current when the
joined promise settles. -/
def fetchDataSettled (o : Except AxiosError (JSValue × JSValue)) (s : State) : State :=
  match o with
  | .ok (historyData, statsData) =>
    { s with history := historyData, statistics := statsData, loading := false }
  | .error _ =>
    { s with error := .string "Failed to load dashboard data. Please try again.",
             loading := false }

end Dashboard

/-! ## Settlement of gateway calls, the dashboard as a transition system -/

/-- What the promise of a gateway call settles with, given how the transport
settled: each of the five functions awaits `api.get` or `api.post` and returns
`response.data`, with no `try` around the `await`. A rejected promise is what
the caller sees as a thrown error at its own `await`. -/
def GatewayCall.result (c : GatewayCall) (t : Except AxiosError AxiosResponse) : Outcome :=
  match c with
  | .predictDisease _ => responseData t
  | .predictSoilRecommendation _ => responseData t
  | .getWeatherAdvisory _ => responseData t
  | .getPredictionHistory _ _ => responseData t
  | .getStatistics => responseData t

/-- Property read `v.key` as an operation that can throw: `none` is the
`TypeError` raised when `v` is `null` or `undefined`. -/
def JSValue.prop (v : JSValue) (key : String) : Option JSValue :=
  if v.isNullish then none else some (v.get key)

/-- The expression `err.response?.data?.detail`. -/
def errorDetail (err : AxiosError) : JSValue :=
  match err.response with
  | none => .undefined
  | some response => response.data.optGet "detail"

namespace Dashboard

/-- Effects, clicks and promise settlements of the page. The event `mount` is
the effect after the first render; `setFilter` is a click on a filter button,
followed by the effect when the filter changed; `refresh` is a click on the
Refresh button; `settle k h st historyFirst` settles the two promises of the
cycle at position `k` of `pending`. -/
inductive Event where
  | mount
  | setFilter (type : String)
  | refresh
  | settle (k : Nat) (h st : Outcome) (historyFirst : Bool)

/-- One event. A fetch cycle adds one entry to `pending`, the promise of
`Promise.all`. -/
def step (sys : Sys State Unit) : Event → Option (Sys State Unit)
  | .mount =>
    let r := fetchData sys.view
    some { view := r.1, pending := sys.pending ++ [()], calls := sys.calls ++ r.2 }
  | .setFilter type =>
    if type = sys.view.filter then some sys
    else
      let r := fetchData { sys.view with filter := type }
      some { view := r.1, pending := sys.pending ++ [()], calls := sys.calls ++ r.2 }
  | .refresh =>
    let r := fetchData sys.view
    some { view := r.1, pending := sys.pending ++ [()], calls := sys.calls ++ r.2 }
  | .settle k h st historyFirst =>
    match sys.pending.get? k with
    | none => none
    | some _ =>
      some { sys with view := fetchDataSettled (promiseAll h st historyFirst) sys.view,
                      pending := sys.pending.eraseIdx k }

/-- A sequence of events. -/
def run (sys : Sys State Unit) : List Event → Option (Sys State Unit)
  | [] => some sys
  | e :: es => (step sys e).bind (fun t => run t es)

/-- The page at its first render, before the effect. -/
def start : Sys State Unit :=
  { view := init, pending := [], calls := [] }

/-! ### Rendering of the history list -/

/-- Strict equality `v === name` with a string literal. -/
def strictEqString (v : JSValue) (name : String) : Bool :=
  match v with
  | .string s => s == name
  | _ => false

/-- The function `getPredictionTypeColor`. -/
def getPredictionTypeColor (type : JSValue) : String :=
  if strictEqString type "disease" then "bg-blue-100 text-blue-700"
  else if strictEqString type "soil" then "bg-amber-100 text-amber-700"
  else if strictEqString type "weather" then "bg-cyan-100 text-cyan-700"
  else "bg-gray-100 text-gray-700"

/-- The function `getPredictionTypeIcon`. -/
def getPredictionTypeIcon (type : JSValue) : String :=
  if strictEqString type "disease" then "🌿"
  else if strictEqString type "soil" then "🌾"
  else if strictEqString type "weather" then "🌤️"
  else "📊"

/-- The call `type.toUpperCase()`: `none` is the `TypeError` raised when
`type` is not a string. The built-in `String.prototype.toUpperCase` is the
parameter `toUpperCase`. -/
def typeLabel (toUpperCase : String → String) (type : JSValue) : Option String :=
  match type with
  | .string s => some (toUpperCase s)
  | _ => none

mutual
/-- Can React render the value as a child (`{value}` in JSX): strings, numbers,
booleans, `null` and `undefined` can, an array can when all its items can, and
a plain object cannot (React throws "Objects are not valid as a React
child"). -/
def validChild : JSValue → Bool
  | .object _ => false
  | .array items => validChildren items
  | _ => true
/-- Can React render every value of the list as a child. -/
def validChildren : List JSValue → Bool
  | [] => true
  | v :: vs => validChild v && validChildren vs
end

/-- A value placed as a child in JSX; `none` means that React throws. -/
def child (v : JSValue) : Option JSValue :=
  if validChild v then some v else none

/-- What is rendered for one history record: the React key, the icon, the
colour classes and the label of the badge, whether the confidence is shown, the
three conditional detail blocks, and the date handed to `formatDate`. -/
structure RecordView where
  key : JSValue
  icon : String
  colorClass : String
  label : String
  confidenceShown : Bool
  diseaseBlock : Option (JSValue × JSValue)
  soilBlock : Option (JSValue × JSValue)
  weatherBlock : Option (JSValue × JSValue × JSValue)
  createdAt : JSValue

/-- The block shown when `prediction.prediction_type === 'disease'`, with the
children `result.disease` and `result.treatment`. -/
def renderDiseaseBlock (prediction type : JSValue) : Option (Option (JSValue × JSValue)) :=
  if strictEqString type "disease" then do
    let result ← prediction.prop "result"
    let disease ← result.prop "disease"
    let disease ← child disease
    let treatment ← result.prop "treatment"
    let treatment ← child treatment
    pure (some (disease, treatment))
  else pure none

/-- The block shown when `prediction.prediction_type === 'soil'`, with the
children `result.recommended_crop` and `result.fertilizer_advice`. -/
def renderSoilBlock (prediction type : JSValue) : Option (Option (JSValue × JSValue)) :=
  if strictEqString type "soil" then do
    let result ← prediction.prop "result"
    let crop ← result.prop "recommended_crop"
    let crop ← child crop
    let advice ← result.prop "fertilizer_advice"
    let advice ← child advice
    pure (some (crop, advice))
  else pure none

/-- The block shown when `prediction.prediction_type === 'weather'`, with the
children `result.location`, `result.temperature` and
`result.irrigation_advice`. -/
def renderWeatherBlock (prediction type : JSValue) :
    Option (Option (JSValue × JSValue × JSValue)) :=
  if strictEqString type "weather" then do
    let result ← prediction.prop "result"
    let location ← result.prop "location"
    let location ← child location
    let temperature ← result.prop "temperature"
    let temperature ← child temperature
    let advice ← result.prop "irrigation_advice"
    let advice ← child advice
    pure (some (location, temperature, advice))
  else pure none

/-- The body of `history.map((prediction) => ...)`; `none` means that
rendering the record throws. The key is coerced to a string by React, the
confidence is shown through `toFixed` and the date through `formatDate`, none
of which throws. -/
def renderRecord (toUpperCase : String → String) (prediction : JSValue) :
    Option RecordView := do
  let key ← prediction.prop "id"
  let type ← prediction.prop "prediction_type"
  let label ← typeLabel toUpperCase type
  let confidence ← prediction.prop "confidence"
  let diseaseBlock ← renderDiseaseBlock prediction type
  let soilBlock ← renderSoilBlock prediction type
  let weatherBlock ← renderWeatherBlock prediction type
  let createdAt ← prediction.prop "created_at"
  pure { key := key, icon := getPredictionTypeIcon type,
         colorClass := getPredictionTypeColor type, label := label,
         confidenceShown := confidence.truthy, diseaseBlock := diseaseBlock,
         soilBlock := soilBlock, weatherBlock := weatherBlock, createdAt := createdAt }

/-- The call `history.map(...)` on the items of an array. -/
def renderRecords (toUpperCase : String → String) : List JSValue → Option (List RecordView)
  | [] => some []
  | prediction :: rest =>
    match renderRecord toUpperCase prediction, renderRecords toUpperCase rest with
    | some v, some vs => some (v :: vs)
    | _, _ => none

/-- What the card "Recent Predictions" shows. -/
inductive HistoryView where
  | noPredictions
  | records (views : List RecordView)

/-- The expression `history.length === 0 ? ... : history.map(...)`; `none`
means that it throws. -/
def renderHistory (toUpperCase : String → String) (history : JSValue) : Option HistoryView :=
  match history with
  | .array items =>
    if items.length = 0 then some .noPredictions
    else (renderRecords toUpperCase items).map .records
  | .string s => if s = "" then some .noPredictions else none
  | .object props =>
    match (JSValue.object props).get "length" with
    | .number (.fin q) => if q = 0 then some .noPredictions else none
    | _ => none
  | _ => none

/-- The block `error && (<div>{error}</div>)`: the error as a child when it is
truthy; `none` means that React throws. -/
def renderErrorBanner (error : JSValue) : Option (Option JSValue) :=
  if error.truthy then (child error).map some else some none

/-- The four statistics cards, shown when `statistics` is truthy: the children
`statistics.total_predictions`, `disease_predictions`, `soil_predictions` and
`weather_predictions`. -/
def renderStatistics (statistics : JSValue) :
    Option (JSValue × JSValue × JSValue × JSValue) := do
  let total ← child (statistics.get "total_predictions")
  let disease ← child (statistics.get "disease_predictions")
  let soil ← child (statistics.get "soil_predictions")
  let weather ← child (statistics.get "weather_predictions")
  pure (total, disease, soil, weather)

/-- The history card as rendered by the page: it sits inside the block
`statistics && (...)`, after the error banner and the statistics cards, and is
absent while `statistics` is falsy. The outer `none` means that rendering the
page throws. -/
def renderHistoryCard (toUpperCase : String → String) (s : State) :
    Option (Option HistoryView) := do
  let _ ← renderErrorBanner s.error
  if s.statistics.truthy then do
    let _ ← renderStatistics s.statistics
    let h ← renderHistory toUpperCase s.history
    pure (some h)
  else pure none

/-- Number of record views shown by the history card. -/
def HistoryView.count : HistoryView → Nat
  | .noPredictions => 0
  | .records views => views.length

/-- Number of records of a history value that is an array. -/
def historyCount : JSValue → Nat
  | .array items => items.length
  | _ => 0

end Dashboard

/-! ## Event sequences with one request at a time -/

/-- Does the step from `sys` to `t` issue a request while another one is
outstanding. -/
def issuesWhileBusy {σ κ : Type} (sys t : Sys σ κ) : Bool :=
  decide (0 < sys.pending.length ∧ sys.pending.length < t.pending.length)

/-- A sequence of events of the soil page in which a request is issued only
when none is outstanding; `none` when the sequence is not of that kind or an
event is not enabled. -/
def SoilRecommendation.runSerial (sys : Sys SoilRecommendation.State Unit) :
    List SoilRecommendation.Event → Option (Sys SoilRecommendation.State Unit)
  | [] => some sys
  | e :: es =>
    match SoilRecommendation.step sys e with
    | none => none
    | some t => if issuesWhileBusy sys t then none else SoilRecommendation.runSerial t es

/-- A sequence of events of the disease page in which a request is issued only
when none is outstanding. -/
def DiseaseDetection.runSerial (sys : Sys DiseaseDetection.State Unit) :
    List DiseaseDetection.Event → Option (Sys DiseaseDetection.State Unit)
  | [] => some sys
  | e :: es =>
    match DiseaseDetection.step sys e with
    | none => none
    | some t => if issuesWhileBusy sys t then none else DiseaseDetection.runSerial t es

/-- A sequence of events of the weather page in which a request is issued only
when none is outstanding. -/
def WeatherAdvisory.runSerial (sys : Sys WeatherAdvisory.State WeatherAdvisory.Task) :
    List WeatherAdvisory.Event → Option (Sys WeatherAdvisory.State WeatherAdvisory.Task)
  | [] => some sys
  | e :: es =>
    match WeatherAdvisory.step sys e with
    | none => none
    | some t => if issuesWhileBusy sys t then none else WeatherAdvisory.runSerial t es

/-! ## The guards of the markup: form validation and disabled buttons -/

namespace SoilRecommendation

/-- The exponent of a valid floating-point number of HTML: nothing, or `e` or
`E`, an optional sign and at least one digit up to the end. -/
def validExponent (cs : List Char) : Bool :=
  match cs with
  | [] => true
  | c :: rest =>
    (c == 'e' || c == 'E') &&
      (match rest with
       | [] => false
       | d :: more =>
         if d == '-' || d == '+' then !more.isEmpty && more.all isDecimalDigit
         else rest.all isDecimalDigit)

/-- The fraction and exponent of a valid floating-point number, after the
integer digits; `hasInteger` tells whether there were any. -/
def validFraction (hasInteger : Bool) (cs : List Char) : Bool :=
  match cs with
  | '.' :: rest =>
    !(rest.takeWhile isDecimalDigit).isEmpty && validExponent (rest.dropWhile isDecimalDigit)
  | _ => hasInteger && validExponent cs

/-- Is the string a valid floating-point number of HTML, the only non-empty
values an `<input type="number">` holds: an optional `-`, digits, an optional
fraction, an optional exponent. -/
def isValidFloatingPointNumber (text : String) : Bool :=
  let body := match text.data with
    | '-' :: rest => rest
    | cs => cs
  validFraction (!(body.takeWhile isDecimalDigit).isEmpty) (body.dropWhile isDecimalDigit)

/-- Constraint validation of one input of the form, `<input type="number"
min="0" max=... step="0.1" required>`: the value is a valid floating-point
number (otherwise the input holds the empty string and `required` fails), it
lies between `min` and `max`, and it is `min` plus a whole number of steps. On
a valid floating-point number the number HTML parses is the one `parseFloat`
gives. -/
def fieldValid (max : ℚ) (text : String) : Bool :=
  isValidFloatingPointNumber text &&
    (match parseFloat text with
     | .fin q => decide (0 ≤ q ∧ q ≤ max ∧ (q * 10).den = 1)
     | _ => false)

/-- The names of the inputs that fail constraint validation, in the order of
the form. -/
def invalidFields (formData : FormData) : List String :=
  (if fieldValid 200 formData.nitrogen then [] else ["nitrogen"]) ++
  (if fieldValid 200 formData.phosphorus then [] else ["phosphorus"]) ++
  (if fieldValid 200 formData.potassium then [] else ["potassium"]) ++
  (if fieldValid 14 formData.ph then [] else ["ph"]) ++
  (if fieldValid 500 formData.rainfall then [] else ["rainfall"])

/-- Outcome of a submission of the form: the page afterwards, and the inputs
the browser reports as invalid to the user (none when the submit event was
fired). -/
structure SubmitAttempt where
  sys : Sys State Unit
  reported : List String

/-- Submission of `<form onSubmit={handleSubmit}>` (the form has no
`noValidate`): the browser validates the inputs first; when one is invalid it
reports the invalid inputs and fires no submit event, otherwise `handleSubmit`
runs. -/
def requestSubmit (sys : Sys State Unit) : SubmitAttempt :=
  if (invalidFields sys.view.formData).isEmpty then
    let r := handleSubmit sys.view
    { sys := { view := r.1, pending := sys.pending ++ r.2.map (fun _ => ()),
               calls := sys.calls ++ r.2 },
      reported := [] }
  else { sys := sys, reported := invalidFields sys.view.formData }

/-- One event of the page as a user can cause it: the submit button is
`disabled={loading}`, so `submit` is not enabled while `loading`, and a
submission goes through the validation of the form. -/
def stepPage (sys : Sys State Unit) : Event → Option (Sys State Unit)
  | .submit => if sys.view.loading then none else some (requestSubmit sys).sys
  | e => step sys e

/-- A sequence of events of the page as a user can cause them. -/
def runPage (sys : Sys State Unit) : List Event → Option (Sys State Unit)
  | [] => some sys
  | e :: es => (stepPage sys e).bind (fun t => runPage t es)

end SoilRecommendation

namespace WeatherAdvisory

/-- One event of the page as a user can cause it: the submit button is
`disabled={loading}`, so `submit` is not enabled while `loading`; the city
buttons are never disabled. -/
def stepPage (sys : Sys State Task) : Event → Option (Sys State Task)
  | .submit => if sys.view.loading then none else step sys .submit
  | e => step sys e

/-- A sequence of events of the page as a user can cause them. -/
def runPage (sys : Sys State Task) : List Event → Option (Sys State Task)
  | [] => some sys
  | e :: es => (stepPage sys e).bind (fun t => runPage t es)

end WeatherAdvisory

/-! ## Inputs used in the examples -/

/-- Upper-casing of the letters `a` to `z`: the value of
`String.prototype.toUpperCase` on strings of ASCII characters, which is all the
examples below apply it to. -/
def upperAscii (s : String) : String :=
  String.mk (s.data.map Char.toUpper)

/-- An image file of sixty megabytes. -/
def hugeJpeg : File :=
  { name := "field.jpg", type := "image/jpeg", size := 62914560 }


/-- A soil form whose nitrogen field parses to 500, above its range. -/
def formNitrogen500 : SoilRecommendation.FormData :=
  { nitrogen := "500", phosphorus := "40", potassium := "30", ph := "6.5", rainfall := "120" }

/-- A soil form whose nitrogen field is empty; the other four are in range. -/
def formNitrogenEmpty : SoilRecommendation.FormData :=
  { nitrogen := "", phosphorus := "40", potassium := "30", ph := "6.5", rainfall := "120" }

/-- An image file. -/
def leafPng : File :=
  { name := "leaf.png", type := "image/png", size := 2048 }

/-- A text file. -/
def notesTxt : File :=
  { name := "notes.txt", type := "text/plain", size := 12 }

/-- A weather response for Mumbai. -/
def weatherMumbai : JSValue :=
  .object [("location", .string "Mumbai"), ("temperature", .number (.fin 31))]

/-- A weather response for Pune. -/
def weatherPune : JSValue :=
  .object [("location", .string "Pune"), ("temperature", .number (.fin 27))]

/-- A soil response. -/
def soilRice : JSValue :=
  .object [("recommended_crop", .string "rice"), ("fertilizer_advice", .string "apply urea")]

/-- A disease response. -/
def diseaseBlight : JSValue :=
  .object [("disease", .string "Leaf blight"), ("confidence", .number (.fin (9 / 10))),
           ("treatment", .string "Remove affected leaves")]

/-- A history response. -/
def historyOne : JSValue :=
  .array [.object [("id", .number (.fin 1)), ("prediction_type", .string "soil")]]

/-- A rejection without a response (the network was unreachable). -/
def networkError : AxiosError :=
  { response := none }

/-- Events that type an in-range soil form into the five inputs. -/
def fillSoilForm : List SoilRecommendation.Event :=
  [.change "nitrogen" "50", .change "phosphorus" "40", .change "potassium" "30",
   .change "ph" "6.5", .change "rainfall" "120"]

/-- A 422 rejection whose `detail` is a list of validation entries, as a
FastAPI backend sends for a body it cannot validate. -/
def rejectedListDetail : AxiosError :=
  { response := some
      { status := 422,
        data := .object [("detail", .array [.object
          [("loc", .array [.string "body", .string "nitrogen"]),
           ("msg", .string "field required")]])] } }

/-- A rejection whose response carries the detail `File must be an image`. -/
def rejectedWithDetail : AxiosError :=
  { response := some { status := 400,
                       data := .object [("detail", .string "File must be an image")] } }

/-- The soil form nitrogen 50, phosphorus 40, potassium 30, ph 6.5, rainfall
120. -/
def formRoundTrip : SoilRecommendation.FormData :=
  { nitrogen := "50", phosphorus := "40", potassium := "30", ph := "6.5", rainfall := "120" }

/-- A response whose body is a page of text, not a prediction. -/
def htmlResponse : AxiosResponse :=
  { status := 200, data := .string "<html>Bad gateway</html>" }

/-- A statistics response. -/
def statsOne : JSValue :=
  .object [("total_predictions", .number (.fin 1)), ("disease_predictions", .number (.fin 0)),
           ("soil_predictions", .number (.fin 1)), ("weather_predictions", .number (.fin 0))]

/-- A history record of the soil type. -/
def recordSoil : JSValue :=
  .object [("id", .number (.fin 1)), ("prediction_type", .string "soil"),
           ("result", soilRice), ("created_at", .string "2024-05-01T10:00:00")]

/-- A history record of the weather type. -/
def recordWeather : JSValue :=
  .object [("id", .number (.fin 2)), ("prediction_type", .string "weather"),
           ("result", weatherPune), ("created_at", .string "2024-05-02T10:00:00")]

/-- A history record whose type is none of the three known ones. -/
def recordCrop : JSValue :=
  .object [("id", .number (.fin 7)), ("prediction_type", .string "crop"),
           ("result", .object []), ("created_at", .string "2024-05-03T10:00:00")]

/-- A history record without a `prediction_type`. -/
def recordNoType : JSValue :=
  .object [("id", .number (.fin 8)), ("result", .object []),
           ("created_at", .string "2024-05-04T10:00:00")]

/-- A history response of fifty-one records. -/
def historyFiftyOne : JSValue :=
  .array (List.replicate 51 recordSoil)

/-- What the history card shows for `recordSoil`. -/
def viewSoil : Dashboard.RecordView :=
  { key := .number (.fin 1), icon := "🌾", colorClass := "bg-amber-100 text-amber-700",
    label := "SOIL", confidenceShown := false, diseaseBlock := none,
    soilBlock := some (.string "rice", .string "apply urea"), weatherBlock := none,
    createdAt := .string "2024-05-01T10:00:00" }

/-- What the history card shows for `recordWeather`. -/
def viewWeather : Dashboard.RecordView :=
  { key := .number (.fin 2), icon := "🌤️", colorClass := "bg-cyan-100 text-cyan-700",
    label := "WEATHER", confidenceShown := false, diseaseBlock := none, soilBlock := none,
    weatherBlock := some (.string "Pune", .number (.fin 27), .undefined),
    createdAt := .string "2024-05-02T10:00:00" }

/-- What the history card shows for `recordCrop`. -/
def viewCrop : Dashboard.RecordView :=
  { key := .number (.fin 7), icon := "📊", colorClass := "bg-gray-100 text-gray-700",
    label := "CROP", confidenceShown := false, diseaseBlock := none, soilBlock := none,
    weatherBlock := none, createdAt := .string "2024-05-03T10:00:00" }

/-- A history response for the filter `soil`. -/
def historySoilOnly : JSValue :=
  .array [recordSoil]

/-- A history response for the filter `weather`. -/
def historyWeatherOnly : JSValue :=
  .array [recordWeather]

/-- The soil page after the form 50, 40, 30, 6.5, 120 was typed and submitted,
the request failed without a response, and the form was submitted again. -/
def soilResubmitted : Sys SoilRecommendation.State Unit :=
  { view := { formData := formRoundTrip, prediction := .null, loading := true,
              error := .null },
    pending := [()],
    calls := [.predictSoilRecommendation (SoilRecommendation.soilData formRoundTrip),
              .predictSoilRecommendation (SoilRecommendation.soilData formRoundTrip)] }

/-- The dashboard after its first cycle failed and Refresh was clicked. -/
def dashboardRefreshed : Sys Dashboard.State Unit :=
  { view := { history := .array [], statistics := .null, loading := true, filter := "all",
              error := .null },
    pending := [()],
    calls := [.getPredictionHistory .null (.number (.fin 50)), .getStatistics,
              .getPredictionHistory .null (.number (.fin 50)), .getStatistics] }

/-- The disease page after an image was selected and submitted. -/
def diseaseSubmitted : Sys DiseaseDetection.State Unit :=
  { view := { selectedImage := some leafPng, imagePreview := some "blob:1", prediction := .null,
              loading := true, error := .null },
    pending := [()], calls := [.predictDisease leafPng] }

/-- The soil page after the form 50, 40, 30, 6.5, 120 was submitted and
answered. -/
def soilAnswered : Sys SoilRecommendation.State Unit :=
  { view := { formData := formRoundTrip, prediction := soilRice, loading := false,
              error := .null },
    pending := [],
    calls := [.predictSoilRecommendation (SoilRecommendation.soilData formRoundTrip)] }

/-- The weather page after Pune was selected and the request failed without a
response. -/
def weatherFailed : Sys WeatherAdvisory.State WeatherAdvisory.Task :=
  { view := { location := "Pune", weather := .null, loading := false,
              error := .string "Failed to fetch weather data. Please try again." },
    pending := [], calls := [.getWeatherAdvisory (.string "Pune")] }

/-- The soil page holding the form with nitrogen `500`, idle. -/
def soilNitrogen500 : Sys SoilRecommendation.State Unit :=
  { view := { SoilRecommendation.init with formData := formNitrogen500 },
    pending := [], calls := [] }

/-- The soil page holding the form with an empty nitrogen field and the other
four fields in range, idle. -/
def soilNitrogenEmpty : Sys SoilRecommendation.State Unit :=
  { view := { SoilRecommendation.init with formData := formNitrogenEmpty },
    pending := [], calls := [] }

/-- The soil page after the form 50, 40, 30, 6.5, 120 was typed and
submitted. -/
def soilSubmitted : Sys SoilRecommendation.State Unit :=
  { view := { formData := formRoundTrip, prediction := .null, loading := true, error := .null },
    pending := [()],
    calls := [.predictSoilRecommendation (SoilRecommendation.soilData formRoundTrip)] }

/-- A history response for the filter `all`: the soil record and the weather
record. -/
def historyBoth : JSValue :=
  .array [recordSoil, recordWeather]

/-- The dashboard after its first load was answered with `historyBoth`. -/
def dashboardLoaded : Sys Dashboard.State Unit :=
  { view := { history := historyBoth, statistics := statsOne, loading := false,
              filter := "all", error := .null },
    pending := [],
    calls := [.getPredictionHistory .null (.number (.fin 50)), .getStatistics] }

/-- The weather page after Pune was selected, the request failed without a
response, and Mumbai was selected. -/
def weatherReselected : Sys WeatherAdvisory.State WeatherAdvisory.Task :=
  { view := { location := "Mumbai", weather := .null, loading := true, error := .null },
    pending := [.selectCity],
    calls := [.getWeatherAdvisory (.string "Pune"), .getWeatherAdvisory (.string "Mumbai")] }

/-! ## Auxiliary facts -/

theorem parseFloat_500 : parseFloat "500" = .fin 500 := by
  have h : scanDecimal (trimStartChars "500".data) = .decimal false 500 0 := by decide
  simp [parseFloat, h, DecimalScan.toNumber]

theorem parseFloat_empty : parseFloat "" = .nan := by
  have h : scanDecimal (trimStartChars "".data) = .noMatch := by decide
  simp [parseFloat, h, DecimalScan.toNumber]

theorem parseFloat_40 : parseFloat "40" = .fin 40 := by
  have h : scanDecimal (trimStartChars "40".data) = .decimal false 40 0 := by decide
  simp [parseFloat, h, DecimalScan.toNumber]

theorem parseFloat_30 : parseFloat "30" = .fin 30 := by
  have h : scanDecimal (trimStartChars "30".data) = .decimal false 30 0 := by decide
  simp [parseFloat, h, DecimalScan.toNumber]

theorem parseFloat_120 : parseFloat "120" = .fin 120 := by
  have h : scanDecimal (trimStartChars "120".data) = .decimal false 120 0 := by decide
  simp [parseFloat, h, DecimalScan.toNumber]

theorem parseFloat_6_5 : parseFloat "6.5" = .fin (13 / 2) := by
  have h : scanDecimal (trimStartChars "6.5".data) = .decimal false 65 (-1) := by decide
  simp [parseFloat, h, DecimalScan.toNumber]
  norm_num

theorem weather_run_append (sys : Sys WeatherAdvisory.State WeatherAdvisory.Task)
    (es fs : List WeatherAdvisory.Event) :
    WeatherAdvisory.run sys (es ++ fs) =
      (WeatherAdvisory.run sys es).bind (fun t => WeatherAdvisory.run t fs) := by
  induction es generalizing sys with
  | nil => simp [WeatherAdvisory.run]
  | cons e es ih =>
    simp only [List.cons_append, WeatherAdvisory.run]
    cases WeatherAdvisory.step sys e with
    | none => rfl
    | some t => simpa using ih t

theorem weather_two_pending (s2 : Sys WeatherAdvisory.State WeatherAdvisory.Task)
    (r1 r2 : JSValue) (htwo : s2.pending.length = 2) :
    (WeatherAdvisory.run s2 [.settle 0 (.ok r1), .settle 0 (.ok r2)]).map
        (fun t => (t.view.weather, t.pending.length)) = some (r2, 0) ∧
    (WeatherAdvisory.run s2 [.settle 1 (.ok r2), .settle 0 (.ok r1)]).map
        (fun t => (t.view.weather, t.pending.length)) = some (r1, 0) := by
  obtain ⟨view, pending, calls⟩ := s2
  match pending, htwo with
  | [t1, t2], _ =>
    cases t1 <;> cases t2 <;>
      simp [WeatherAdvisory.run, WeatherAdvisory.step, WeatherAdvisory.Task.settled,
        WeatherAdvisory.handleSubmitSettled, WeatherAdvisory.selectCitySettled]

theorem isImageType_iff (file : File) :
    DiseaseDetection.isImageType file = true ↔ ∃ rest : String, file.type = "image/" ++ rest := by
  unfold DiseaseDetection.isImageType
  rw [List.isPrefixOf_iff_prefix]
  constructor
  · rintro ⟨t, ht⟩
    refine ⟨String.mk t, ?_⟩
    apply String.ext
    simp [String.data_append, ← ht]
  · rintro ⟨rest, h⟩
    exact ⟨rest.data, by rw [h, String.data_append]⟩

theorem mem_dropWhile_of_not {p : Char → Bool} {c : Char} {cs : List Char}
    (hc : c ∈ cs) (hp : p c = false) : c ∈ cs.dropWhile p := by
  induction cs with
  | nil => cases hc
  | cons a as ih =>
    by_cases ha : p a = true
    · rw [List.dropWhile_cons_of_pos ha]
      rcases List.mem_cons.mp hc with rfl | h
      · rw [hp] at ha
        cases ha
      · exact ih h
    · rw [List.dropWhile_cons_of_neg ha]
      exact hc

theorem jsTrim_blank (s : String) (h : ∀ c ∈ s.data, isJSWhiteSpace c = true) :
    jsTrim s = "" := by
  have h1 : trimStartChars s.data = [] := by
    unfold trimStartChars
    exact List.dropWhile_eq_nil_iff.mpr h
  simp [jsTrim, h1, trimEndChars]

theorem jsTrim_not_blank (s : String) (h : ∃ c ∈ s.data, isJSWhiteSpace c = false) :
    jsTrim s ≠ "" := by
  obtain ⟨c, hc, hw⟩ := h
  have h1 : c ∈ trimStartChars s.data := mem_dropWhile_of_not hc hw
  have h2 : c ∈ trimEndChars (trimStartChars s.data) := by
    unfold trimEndChars
    exact List.mem_reverse.mpr (mem_dropWhile_of_not (List.mem_reverse.mpr h1) hw)
  intro hempty
  have h3 : (jsTrim s).data = [] := by rw [hempty]
  simp only [jsTrim] at h3
  rw [h3] at h2
  cases h2

/-! ## Soil validation (C1, C2) -/

theorem fieldValid_inRange (max : ℚ) (text : String)
    (h : SoilRecommendation.fieldValid max text = true) :
    SoilRecommendation.inRange 0 max (parseFloat text) := by
  unfold SoilRecommendation.fieldValid at h
  cases hp : parseFloat text with
  | nan => simp [hp] at h
  | inf negative => simp [hp] at h
  | fin q =>
    simp only [hp, Bool.and_eq_true, decide_eq_true_eq] at h
    exact ⟨h.2.1, h.2.2.1⟩

theorem fieldValid_of_nan (max : ℚ) (text : String) (h : parseFloat text = .nan) :
    SoilRecommendation.fieldValid max text = false := by
  simp [SoilRecommendation.fieldValid, h]

theorem fieldValid_of_not_inRange (max : ℚ) (text : String)
    (h : ¬ SoilRecommendation.inRange 0 max (parseFloat text)) :
    SoilRecommendation.fieldValid max text = false := by
  cases hv : SoilRecommendation.fieldValid max text with
  | false => rfl
  | true => exact absurd (fieldValid_inRange max text hv) h

theorem invalidFields_nil (formData : SoilRecommendation.FormData)
    (h : SoilRecommendation.invalidFields formData = []) :
    SoilRecommendation.FieldsInRange formData := by
  unfold SoilRecommendation.invalidFields at h
  simp only [List.append_eq_nil] at h
  obtain ⟨⟨⟨⟨h1, h2⟩, h3⟩, h4⟩, h5⟩ := h
  refine ⟨fieldValid_inRange _ _ ?_, fieldValid_inRange _ _ ?_, fieldValid_inRange _ _ ?_,
    fieldValid_inRange _ _ ?_, fieldValid_inRange _ _ ?_⟩
  · cases hv : SoilRecommendation.fieldValid 200 formData.nitrogen with
    | true => rfl
    | false => simp [hv] at h1
  · cases hv : SoilRecommendation.fieldValid 200 formData.phosphorus with
    | true => rfl
    | false => simp [hv] at h2
  · cases hv : SoilRecommendation.fieldValid 200 formData.potassium with
    | true => rfl
    | false => simp [hv] at h3
  · cases hv : SoilRecommendation.fieldValid 14 formData.ph with
    | true => rfl
    | false => simp [hv] at h4
  · cases hv : SoilRecommendation.fieldValid 500 formData.rainfall with
    | true => rfl
    | false => simp [hv] at h5

theorem invalidFields_mem (formData : SoilRecommendation.FormData) :
    (SoilRecommendation.fieldValid 200 formData.nitrogen = false →
      "nitrogen" ∈ SoilRecommendation.invalidFields formData) ∧
    (SoilRecommendation.fieldValid 200 formData.phosphorus = false →
      "phosphorus" ∈ SoilRecommendation.invalidFields formData) ∧
    (SoilRecommendation.fieldValid 200 formData.potassium = false →
      "potassium" ∈ SoilRecommendation.invalidFields formData) ∧
    (SoilRecommendation.fieldValid 14 formData.ph = false →
      "ph" ∈ SoilRecommendation.invalidFields formData) ∧
    (SoilRecommendation.fieldValid 500 formData.rainfall = false →
      "rainfall" ∈ SoilRecommendation.invalidFields formData) := by
  refine ⟨?_, ?_, ?_, ?_, ?_⟩ <;> intro h <;> simp [SoilRecommendation.invalidFields, h]

theorem requestSubmit_blocked (sys : Sys SoilRecommendation.State Unit)
    (h : SoilRecommendation.invalidFields sys.view.formData ≠ []) :
    SoilRecommendation.requestSubmit sys =
      { sys := sys, reported := SoilRecommendation.invalidFields sys.view.formData } := by
  unfold SoilRecommendation.requestSubmit
  cases hl : SoilRecommendation.invalidFields sys.view.formData with
  | nil => exact absurd hl h
  | cons x xs => simp

theorem soil_stepPage_calls (sys t : Sys SoilRecommendation.State Unit)
    (e : SoilRecommendation.Event) (hstep : SoilRecommendation.stepPage sys e = some t)
    (hinv : ∀ c ∈ sys.calls, ∃ form,
      c = GatewayCall.predictSoilRecommendation (SoilRecommendation.soilData form) ∧
      SoilRecommendation.FieldsInRange form) :
    ∀ c ∈ t.calls, ∃ form,
      c = GatewayCall.predictSoilRecommendation (SoilRecommendation.soilData form) ∧
      SoilRecommendation.FieldsInRange form := by
  cases e with
  | change name value =>
    simp only [SoilRecommendation.stepPage, SoilRecommendation.step, Option.some.injEq] at hstep
    subst hstep
    exact hinv
  | reset =>
    simp only [SoilRecommendation.stepPage, SoilRecommendation.step, Option.some.injEq] at hstep
    subst hstep
    exact hinv
  | settle k o =>
    simp only [SoilRecommendation.stepPage, SoilRecommendation.step] at hstep
    split at hstep
    · cases hstep
    · simp only [Option.some.injEq] at hstep
      subst hstep
      exact hinv
  | submit =>
    simp only [SoilRecommendation.stepPage] at hstep
    split at hstep
    · cases hstep
    · simp only [Option.some.injEq] at hstep
      subst hstep
      cases hl : SoilRecommendation.invalidFields sys.view.formData with
      | nil =>
        intro c hc
        simp only [SoilRecommendation.requestSubmit, hl, List.isEmpty_nil, if_true,
          SoilRecommendation.handleSubmit, List.mem_append, List.mem_singleton] at hc
        rcases hc with hc | hc
        · exact hinv c hc
        · exact ⟨sys.view.formData, hc, invalidFields_nil _ hl⟩
      | cons x xs =>
        rw [requestSubmit_blocked sys (by rw [hl]; exact List.cons_ne_nil x xs)]
        exact hinv

theorem soil_runPage_calls (es : List SoilRecommendation.Event)
    (sys t : Sys SoilRecommendation.State Unit)
    (hrun : SoilRecommendation.runPage sys es = some t)
    (hinv : ∀ c ∈ sys.calls, ∃ form,
      c = GatewayCall.predictSoilRecommendation (SoilRecommendation.soilData form) ∧
      SoilRecommendation.FieldsInRange form) :
    ∀ c ∈ t.calls, ∃ form,
      c = GatewayCall.predictSoilRecommendation (SoilRecommendation.soilData form) ∧
      SoilRecommendation.FieldsInRange form := by
  induction es generalizing sys with
  | nil =>
    simp only [SoilRecommendation.runPage, Option.some.injEq] at hrun
    subst hrun
    exact hinv
  | cons e es ih =>
    simp only [SoilRecommendation.runPage] at hrun
    cases hstep : SoilRecommendation.stepPage sys e with
    | none => simp [hstep] at hrun
    | some u =>
      rw [hstep] at hrun
      exact ih u hrun (soil_stepPage_calls sys u e hstep hinv)

theorem formNitrogen500_out_of_range : ¬ SoilRecommendation.FieldsInRange formNitrogen500 := by
  intro h
  have h1 := h.1
  rw [show formNitrogen500.nitrogen = "500" from rfl, parseFloat_500] at h1
  have h2 : (500 : ℚ) ≤ 200 := h1.2
  norm_num at h2

/-- C1. The soil form is submitted through the validation of its inputs
(`type="number"`, `min`, `max`, `step`, `required`, no `noValidate`). In every
state the page can reach, every call to `predictSoilRecommendation` made so far
carries the parsed fields of a form in which nitrogen, phosphorus and potassium
lie in [0,200], ph in [0,14] and rainfall in [0,500]. A submission in which a
parsed field lies outside its range is stopped before `handleSubmit`: the page
and its log of calls stay as they were, and the validation error names every
field that is out of range. -/
theorem soil_range_invariant (es : List SoilRecommendation.Event)
    (t sys : Sys SoilRecommendation.State Unit)
    (hrun : SoilRecommendation.runPage SoilRecommendation.start es = some t)
    (hout : ¬ SoilRecommendation.FieldsInRange sys.view.formData) :
    (∀ c ∈ t.calls, ∃ form,
      c = GatewayCall.predictSoilRecommendation (SoilRecommendation.soilData form) ∧
      SoilRecommendation.FieldsInRange form) ∧
    (SoilRecommendation.requestSubmit sys).sys = sys ∧
    (SoilRecommendation.requestSubmit sys).reported ≠ [] ∧
    (¬ SoilRecommendation.inRange 0 200 (parseFloat sys.view.formData.nitrogen) →
      "nitrogen" ∈ (SoilRecommendation.requestSubmit sys).reported) ∧
    (¬ SoilRecommendation.inRange 0 200 (parseFloat sys.view.formData.phosphorus) →
      "phosphorus" ∈ (SoilRecommendation.requestSubmit sys).reported) ∧
    (¬ SoilRecommendation.inRange 0 200 (parseFloat sys.view.formData.potassium) →
      "potassium" ∈ (SoilRecommendation.requestSubmit sys).reported) ∧
    (¬ SoilRecommendation.inRange 0 14 (parseFloat sys.view.formData.ph) →
      "ph" ∈ (SoilRecommendation.requestSubmit sys).reported) ∧
    (¬ SoilRecommendation.inRange 0 500 (parseFloat sys.view.formData.rainfall) →
      "rainfall" ∈ (SoilRecommendation.requestSubmit sys).reported) := by
  have hne : SoilRecommendation.invalidFields sys.view.formData ≠ [] :=
    fun h => hout (invalidFields_nil _ h)
  have hmem := invalidFields_mem sys.view.formData
  rw [requestSubmit_blocked sys hne]
  refine ⟨?_, rfl, hne, ?_, ?_, ?_, ?_, ?_⟩
  · exact soil_runPage_calls es SoilRecommendation.start t hrun
      (by intro c hc; simp [SoilRecommendation.start] at hc)
  · exact fun h => hmem.1 (fieldValid_of_not_inRange _ _ h)
  · exact fun h => hmem.2.1 (fieldValid_of_not_inRange _ _ h)
  · exact fun h => hmem.2.2.1 (fieldValid_of_not_inRange _ _ h)
  · exact fun h => hmem.2.2.2.1 (fieldValid_of_not_inRange _ _ h)
  · exact fun h => hmem.2.2.2.2 (fieldValid_of_not_inRange _ _ h)

/-- C2. A submission of the soil form in which a field does not parse as a
number (the empty string included), whatever the other fields hold, is stopped
before `handleSubmit`: no call to `predictSoilRecommendation` is made, the page
stays as it was, and the validation error names every field that does not
parse. -/
theorem soil_unparseable_blocked (sys : Sys SoilRecommendation.State Unit)
    (h : parseFloat sys.view.formData.nitrogen = .nan ∨
      parseFloat sys.view.formData.phosphorus = .nan ∨
      parseFloat sys.view.formData.potassium = .nan ∨
      parseFloat sys.view.formData.ph = .nan ∨
      parseFloat sys.view.formData.rainfall = .nan) :
    (SoilRecommendation.requestSubmit sys).sys = sys ∧
    (SoilRecommendation.requestSubmit sys).sys.calls = sys.calls ∧
    (SoilRecommendation.requestSubmit sys).reported ≠ [] ∧
    (parseFloat sys.view.formData.nitrogen = .nan →
      "nitrogen" ∈ (SoilRecommendation.requestSubmit sys).reported) ∧
    (parseFloat sys.view.formData.phosphorus = .nan →
      "phosphorus" ∈ (SoilRecommendation.requestSubmit sys).reported) ∧
    (parseFloat sys.view.formData.potassium = .nan →
      "potassium" ∈ (SoilRecommendation.requestSubmit sys).reported) ∧
    (parseFloat sys.view.formData.ph = .nan →
      "ph" ∈ (SoilRecommendation.requestSubmit sys).reported) ∧
    (parseFloat sys.view.formData.rainfall = .nan →
      "rainfall" ∈ (SoilRecommendation.requestSubmit sys).reported) := by
  have hmem := invalidFields_mem sys.view.formData
  have hne : SoilRecommendation.invalidFields sys.view.formData ≠ [] := by
    rcases h with h | h | h | h | h
    · exact List.ne_nil_of_mem (hmem.1 (fieldValid_of_nan _ _ h))
    · exact List.ne_nil_of_mem (hmem.2.1 (fieldValid_of_nan _ _ h))
    · exact List.ne_nil_of_mem (hmem.2.2.1 (fieldValid_of_nan _ _ h))
    · exact List.ne_nil_of_mem (hmem.2.2.2.1 (fieldValid_of_nan _ _ h))
    · exact List.ne_nil_of_mem (hmem.2.2.2.2 (fieldValid_of_nan _ _ h))
  rw [requestSubmit_blocked sys hne]
  refine ⟨rfl, rfl, hne, ?_, ?_, ?_, ?_, ?_⟩
  · exact fun h => hmem.1 (fieldValid_of_nan _ _ h)
  · exact fun h => hmem.2.1 (fieldValid_of_nan _ _ h)
  · exact fun h => hmem.2.2.1 (fieldValid_of_nan _ _ h)
  · exact fun h => hmem.2.2.2.1 (fieldValid_of_nan _ _ h)
  · exact fun h => hmem.2.2.2.2 (fieldValid_of_nan _ _ h)

theorem parseFloat_50 : parseFloat "50" = .fin 50 := by
  have h : scanDecimal (trimStartChars "50".data) = .decimal false 50 0 := by decide
  simp [parseFloat, h, DecimalScan.toNumber]

theorem formRoundTrip_valid : SoilRecommendation.invalidFields formRoundTrip = [] := by
  have g1 : SoilRecommendation.isValidFloatingPointNumber "50" = true := by decide
  have g2 : SoilRecommendation.isValidFloatingPointNumber "40" = true := by decide
  have g3 : SoilRecommendation.isValidFloatingPointNumber "30" = true := by decide
  have g4 : SoilRecommendation.isValidFloatingPointNumber "6.5" = true := by decide
  have g5 : SoilRecommendation.isValidFloatingPointNumber "120" = true := by decide
  have v1 : SoilRecommendation.fieldValid 200 "50" = true := by
    simp [SoilRecommendation.fieldValid, g1, parseFloat_50]
    norm_num
  have v2 : SoilRecommendation.fieldValid 200 "40" = true := by
    simp [SoilRecommendation.fieldValid, g2, parseFloat_40]
    norm_num
  have v3 : SoilRecommendation.fieldValid 200 "30" = true := by
    simp [SoilRecommendation.fieldValid, g3, parseFloat_30]
    norm_num
  have v4 : SoilRecommendation.fieldValid 14 "6.5" = true := by
    simp [SoilRecommendation.fieldValid, g4, parseFloat_6_5]
    norm_num
  have v5 : SoilRecommendation.fieldValid 500 "120" = true := by
    simp [SoilRecommendation.fieldValid, g5, parseFloat_120]
    norm_num
  simp [SoilRecommendation.invalidFields, formRoundTrip, v1, v2, v3, v4, v5]

theorem soil_runPage_append (sys : Sys SoilRecommendation.State Unit)
    (es fs : List SoilRecommendation.Event) :
    SoilRecommendation.runPage sys (es ++ fs) =
      (SoilRecommendation.runPage sys es).bind (fun t => SoilRecommendation.runPage t fs) := by
  induction es generalizing sys with
  | nil => simp [SoilRecommendation.runPage]
  | cons e es ih =>
    simp only [List.cons_append, SoilRecommendation.runPage]
    cases SoilRecommendation.stepPage sys e with
    | none => rfl
    | some t => simpa using ih t

theorem soil_fill_and_submit :
    SoilRecommendation.runPage SoilRecommendation.start
      (fillSoilForm ++ [SoilRecommendation.Event.submit]) = some soilSubmitted := by
  have hfill : SoilRecommendation.runPage SoilRecommendation.start fillSoilForm =
      some { view := { SoilRecommendation.init with formData := formRoundTrip },
             pending := [], calls := [] } := rfl
  rw [soil_runPage_append, hfill]
  simp [SoilRecommendation.runPage, SoilRecommendation.stepPage, SoilRecommendation.init,
    SoilRecommendation.requestSubmit, formRoundTrip_valid, SoilRecommendation.handleSubmit,
    soilSubmitted]

/-- C1, witness: the form 50, 40, 30, 6.5, 120 is typed and submitted from the
first render, and a submission is tried with nitrogen `500`. -/
theorem soil_range_invariant_witness :
    SoilRecommendation.runPage SoilRecommendation.start
      (fillSoilForm ++ [SoilRecommendation.Event.submit]) = some soilSubmitted ∧
    (SoilRecommendation.requestSubmit soilNitrogen500).sys = soilNitrogen500 ∧
    "nitrogen" ∈ (SoilRecommendation.requestSubmit soilNitrogen500).reported :=
  ⟨soil_fill_and_submit,
   (soil_range_invariant (fillSoilForm ++ [SoilRecommendation.Event.submit]) soilSubmitted
      soilNitrogen500 soil_fill_and_submit formNitrogen500_out_of_range).2.1,
   (soil_range_invariant (fillSoilForm ++ [SoilRecommendation.Event.submit]) soilSubmitted
      soilNitrogen500 soil_fill_and_submit formNitrogen500_out_of_range).2.2.2.1
      (by
        rw [show soilNitrogen500.view.formData.nitrogen = "500" from rfl, parseFloat_500]
        intro h1
        have h2 : (500 : ℚ) ≤ 200 := h1.2
        norm_num at h2)⟩

/-- C2, witness: a submission with the nitrogen field empty and the other four
fields in range. -/
theorem soil_unparseable_blocked_witness :
    (SoilRecommendation.requestSubmit soilNitrogenEmpty).sys = soilNitrogenEmpty ∧
    (SoilRecommendation.requestSubmit soilNitrogenEmpty).sys.calls = [] ∧
    "nitrogen" ∈ (SoilRecommendation.requestSubmit soilNitrogenEmpty).reported :=
  ⟨(soil_unparseable_blocked soilNitrogenEmpty (Or.inl parseFloat_empty)).1,
   (soil_unparseable_blocked soilNitrogenEmpty (Or.inl parseFloat_empty)).2.1,
   (soil_unparseable_blocked soilNitrogenEmpty (Or.inl parseFloat_empty)).2.2.2.1
     parseFloat_empty⟩

/-! ## Overlapping requests and reset (C3, C4, C5) -/

/-- C3, counterexample. On the weather page the city Mumbai is selected, then
Pune while the first request is outstanding; the response for Pune settles
first and the response for Mumbai second. Once both have settled the displayed
weather is the response for Mumbai, the earlier request, while the location
shown is Pune. -/
theorem weather_late_response_overwrites :
    (WeatherAdvisory.run WeatherAdvisory.start
        [.selectCity "Mumbai", .selectCity "Pune"]).map (fun t => t.pending.length) = some 2 ∧
    (WeatherAdvisory.run WeatherAdvisory.start
        [.selectCity "Mumbai", .selectCity "Pune", .settle 1 (.ok weatherPune),
         .settle 0 (.ok weatherMumbai)]).map
      (fun t => (t.view.weather, t.view.location, t.pending.length)) =
      some (weatherMumbai, "Pune", 0) ∧
    weatherMumbai ≠ weatherPune := by
  refine ⟨rfl, rfl, ?_⟩
  simp [weatherMumbai, weatherPune]

/-- C3, as amended. When two requests of the weather page (each issued by
`handleSubmit` or `selectCity`) are outstanding together and both resolve, the
displayed weather is the response that settled last: the second request's
response when the responses arrive in the order of the requests, the first
request's response when it arrives late. -/
theorem weather_last_settlement_wins (sys : Sys WeatherAdvisory.State WeatherAdvisory.Task)
    (e1 e2 : WeatherAdvisory.Event) (r1 r2 : JSValue)
    (htwo : (WeatherAdvisory.run sys [e1, e2]).map (fun t => t.pending.length) = some 2) :
    (WeatherAdvisory.run sys [e1, e2, .settle 0 (.ok r1), .settle 0 (.ok r2)]).map
        (fun t => (t.view.weather, t.pending.length)) = some (r2, 0) ∧
    (WeatherAdvisory.run sys [e1, e2, .settle 1 (.ok r2), .settle 0 (.ok r1)]).map
        (fun t => (t.view.weather, t.pending.length)) = some (r1, 0) := by
  have h1 := weather_run_append sys [e1, e2] [.settle 0 (.ok r1), .settle 0 (.ok r2)]
  have h2 := weather_run_append sys [e1, e2] [.settle 1 (.ok r2), .settle 0 (.ok r1)]
  simp only [List.cons_append, List.nil_append] at h1 h2
  rw [h1, h2]
  cases hrun : WeatherAdvisory.run sys [e1, e2] with
  | none => simp [hrun] at htwo
  | some s2 =>
    rw [hrun] at htwo
    simp only [Option.map_some', Option.some.injEq] at htwo
    exact weather_two_pending s2 r1 r2 htwo

/-- C3, witness: Mumbai then Pune from the first render. -/
theorem weather_last_settlement_wins_witness :
    (WeatherAdvisory.run WeatherAdvisory.start
        [.selectCity "Mumbai", .selectCity "Pune", .settle 0 (.ok weatherMumbai),
         .settle 0 (.ok weatherPune)]).map
        (fun t => (t.view.weather, t.pending.length)) = some (weatherPune, 0) ∧
    (WeatherAdvisory.run WeatherAdvisory.start
        [.selectCity "Mumbai", .selectCity "Pune", .settle 1 (.ok weatherPune),
         .settle 0 (.ok weatherMumbai)]).map
        (fun t => (t.view.weather, t.pending.length)) = some (weatherMumbai, 0) :=
  weather_last_settlement_wins WeatherAdvisory.start (.selectCity "Mumbai")
    (.selectCity "Pune") weatherMumbai weatherPune rfl

/-- C4, counterexample. On the disease page an image is selected and submitted;
on the soil page an in-range form is typed and submitted. `handleReset`, called
while the request is in flight, leaves `loading` true on both pages. -/
theorem reset_in_flight_keeps_loading :
    (DiseaseDetection.run DiseaseDetection.start
        [.selectImage [leafPng] "blob:1", .submit, .reset]).map
      (fun t => (t.view.loading, t.pending.length)) = some (true, 1) ∧
    (SoilRecommendation.run SoilRecommendation.start
        (fillSoilForm ++ [.submit, .reset])).map
      (fun t => (t.view.loading, t.pending.length)) = some (true, 1) :=
  ⟨rfl, rfl⟩

/-- C4, as amended. For every state of the disease page and of the soil page,
`handleReset` clears the selected image and its preview (the five form
fields), the prediction and the error, and leaves `loading` as it was; from a
state with `loading` false the result is the state of the first render. -/
theorem handleReset_clears_all_but_loading (d : DiseaseDetection.State)
    (s : SoilRecommendation.State) :
    DiseaseDetection.handleReset d = { DiseaseDetection.init with loading := d.loading } ∧
    SoilRecommendation.handleReset s = { SoilRecommendation.init with loading := s.loading } ∧
    (d.loading = false → DiseaseDetection.handleReset d = DiseaseDetection.init) ∧
    (s.loading = false → SoilRecommendation.handleReset s = SoilRecommendation.init) := by
  refine ⟨rfl, rfl, ?_, ?_⟩
  · intro h
    simp [DiseaseDetection.handleReset, DiseaseDetection.init, h]
  · intro h
    simp [SoilRecommendation.handleReset, SoilRecommendation.init, h]

/-- C5, counterexample. On the soil page a form is submitted, `handleReset` is
called, and the request then resolves with a recommendation: the prediction
becomes that recommendation. On the disease page the request fails after the
reset: the error becomes the generic message. -/
theorem late_settlement_after_reset_is_applied :
    (SoilRecommendation.run SoilRecommendation.start
        (fillSoilForm ++ [.submit, .reset, .settle 0 (.ok soilRice)])).map
      (fun t => t.view.prediction) = some soilRice ∧
    soilRice ≠ JSValue.null ∧
    (DiseaseDetection.run DiseaseDetection.start
        [.selectImage [leafPng] "blob:1", .submit, .reset, .settle 0 (.error networkError)]).map
      (fun t => t.view.error) = some (.string "Failed to analyze image. Please try again.") := by
  refine ⟨rfl, ?_, rfl⟩
  simp [soilRice]

/-- C5, as amended. On the disease page and on the soil page, a request that is
in flight when `handleReset` is called is still applied when it settles: on
success the prediction becomes the result (error `null`), on failure the error
becomes the server detail or the generic message of the page (prediction
`null`); in both cases `loading` becomes false. -/
theorem late_settlement_applied_to_reset_state (ds : Sys DiseaseDetection.State Unit)
    (ss : Sys SoilRecommendation.State Unit) (k : Nat) (rd rs : JSValue) (err : AxiosError)
    (hd : k < ds.pending.length) (hs : k < ss.pending.length) :
    (DiseaseDetection.run ds [.reset, .settle k (.ok rd)]).map (fun t => t.view) =
      some { DiseaseDetection.init with prediction := rd } ∧
    (DiseaseDetection.run ds [.reset, .settle k (.error err)]).map (fun t => t.view) =
      some { DiseaseDetection.init with
        error := errorMessage err "Failed to analyze image. Please try again." } ∧
    (SoilRecommendation.run ss [.reset, .settle k (.ok rs)]).map (fun t => t.view) =
      some { SoilRecommendation.init with prediction := rs } ∧
    (SoilRecommendation.run ss [.reset, .settle k (.error err)]).map (fun t => t.view) =
      some { SoilRecommendation.init with
        error := errorMessage err "Failed to get recommendation. Please try again." } := by
  have hd1 : ds.pending[k]? = some () := List.getElem?_eq_getElem hd
  have hs1 : ss.pending[k]? = some () := List.getElem?_eq_getElem hs
  simp [DiseaseDetection.run, DiseaseDetection.step, SoilRecommendation.run,
    SoilRecommendation.step, hd1, hs1, DiseaseDetection.handleReset,
    DiseaseDetection.handleSubmitSettled, SoilRecommendation.handleReset,
    SoilRecommendation.handleSubmitSettled, DiseaseDetection.init, SoilRecommendation.init]

/-- C5, witness: one request in flight on each page. -/
theorem late_settlement_applied_to_reset_state_witness :
    (DiseaseDetection.run
        { view := { DiseaseDetection.init with selectedImage := some leafPng, loading := true },
          pending := [()], calls := [.predictDisease leafPng] }
        [.reset, .settle 0 (.ok diseaseBlight)]).map (fun t => t.view) =
      some { DiseaseDetection.init with prediction := diseaseBlight } ∧
    (DiseaseDetection.run
        { view := { DiseaseDetection.init with selectedImage := some leafPng, loading := true },
          pending := [()], calls := [.predictDisease leafPng] }
        [.reset, .settle 0 (.error networkError)]).map (fun t => t.view) =
      some { DiseaseDetection.init with
        error := errorMessage networkError "Failed to analyze image. Please try again." } ∧
    (SoilRecommendation.run
        { view := { SoilRecommendation.init with formData := formNitrogen500, loading := true },
          pending := [()],
          calls := [.predictSoilRecommendation (SoilRecommendation.soilData formNitrogen500)] }
        [.reset, .settle 0 (.ok soilRice)]).map (fun t => t.view) =
      some { SoilRecommendation.init with prediction := soilRice } ∧
    (SoilRecommendation.run
        { view := { SoilRecommendation.init with formData := formNitrogen500, loading := true },
          pending := [()],
          calls := [.predictSoilRecommendation (SoilRecommendation.soilData formNitrogen500)] }
        [.reset, .settle 0 (.error networkError)]).map (fun t => t.view) =
      some { SoilRecommendation.init with
        error := errorMessage networkError "Failed to get recommendation. Please try again." } :=
  late_settlement_applied_to_reset_state
    { view := { DiseaseDetection.init with selectedImage := some leafPng, loading := true },
      pending := [()], calls := [.predictDisease leafPng] }
    { view := { SoilRecommendation.init with formData := formNitrogen500, loading := true },
      pending := [()],
      calls := [.predictSoilRecommendation (SoilRecommendation.soilData formNitrogen500)] }
    0 diseaseBlight soilRice networkError (by decide) (by decide)

/-! ## Dashboard fetch cycle (C6, C7) -/

/-- C6. In a dashboard fetch cycle in which exactly one of
`getPredictionHistory` and `getStatistics` fails, neither `fetchData` up to its
`await` nor its continuation changes `history` or `statistics`; the
continuation sets the error to the fixed dashboard message and `loading` to
false. -/
theorem dashboard_join_is_atomic (s cur : Dashboard.State) (h st : Outcome)
    (historyFirst : Bool)
    (hone : (∃ err v, h = .error err ∧ st = .ok v) ∨ (∃ v err, h = .ok v ∧ st = .error err)) :
    (Dashboard.fetchData s).1.history = s.history ∧
    (Dashboard.fetchData s).1.statistics = s.statistics ∧
    Dashboard.fetchDataSettled (Dashboard.promiseAll h st historyFirst) cur =
      { cur with error := .string "Failed to load dashboard data. Please try again.",
                 loading := false } := by
  refine ⟨rfl, rfl, ?_⟩
  rcases hone with ⟨err, v, rfl, rfl⟩ | ⟨v, err, rfl, rfl⟩ <;> rfl

/-- C6, witness: the history arrives and the statistics request fails, in the
first cycle of the page. -/
theorem dashboard_join_is_atomic_witness :
    (Dashboard.fetchData Dashboard.init).1.history = Dashboard.init.history ∧
    (Dashboard.fetchData Dashboard.init).1.statistics = Dashboard.init.statistics ∧
    Dashboard.fetchDataSettled
        (Dashboard.promiseAll (.ok historyOne) (.error networkError) true)
        (Dashboard.fetchData Dashboard.init).1 =
      { (Dashboard.fetchData Dashboard.init).1 with
        error := .string "Failed to load dashboard data. Please try again.",
        loading := false } :=
  dashboard_join_is_atomic Dashboard.init (Dashboard.fetchData Dashboard.init).1
    (.ok historyOne) (.error networkError) true (Or.inr ⟨historyOne, networkError, rfl, rfl⟩)

/-- C7. A fetch cycle run with filter `f` among `disease`, `soil`, `weather`
calls `getPredictionHistory(f, 50)`, whose request is `GET /predict/history`
with params `limit: 50, prediction_type: f`; with filter `all` it calls
`getPredictionHistory(null, 50)`, whose params are `limit: 50` alone. The cycle
leaves the held history untouched until it settles, and on success stores the
response as it is. -/
theorem dashboard_filter_sent_to_server (s cur : Dashboard.State) (f : String)
    (historyData statsData : JSValue) (historyFirst : Bool)
    (hf : f = "disease" ∨ f = "soil" ∨ f = "weather") :
    (s.filter = f →
      (Dashboard.fetchData s).2 =
        [.getPredictionHistory (.string f) (.number (.fin 50)), .getStatistics]) ∧
    (GatewayCall.getPredictionHistory (.string f) (.number (.fin 50))).request =
      { method := "GET", url := "/predict/history",
        params := [("limit", .number (.fin 50)), ("prediction_type", .string f)],
        body := .none, contentType := "application/json" } ∧
    (s.filter = "all" →
      (Dashboard.fetchData s).2 =
        [.getPredictionHistory .null (.number (.fin 50)), .getStatistics]) ∧
    (GatewayCall.getPredictionHistory .null (.number (.fin 50))).request =
      { method := "GET", url := "/predict/history",
        params := [("limit", .number (.fin 50))],
        body := .none, contentType := "application/json" } ∧
    (Dashboard.fetchData s).1.history = s.history ∧
    (Dashboard.fetchDataSettled
      (Dashboard.promiseAll (.ok historyData) (.ok statsData) historyFirst) cur).history =
      historyData := by
  have hall : f ≠ "all" := by rcases hf with rfl | rfl | rfl <;> decide
  have hne : f ≠ "" := by rcases hf with rfl | rfl | rfl <;> decide
  refine ⟨?_, ?_, ?_, ?_, rfl, rfl⟩
  · intro hs
    simp [Dashboard.fetchData, hs, hall]
  · simp [GatewayCall.request, getPredictionHistory, historyParams, withDefault,
      JSValue.truthy, setProp, hne]
  · intro hs
    simp [Dashboard.fetchData, hs]
  · simp [GatewayCall.request, getPredictionHistory, historyParams, withDefault,
      JSValue.truthy]

/-- C7, witness: the filter `soil`. -/
theorem dashboard_filter_sent_to_server_witness :
    (Dashboard.fetchData { Dashboard.init with filter := "soil" }).2 =
      [.getPredictionHistory (.string "soil") (.number (.fin 50)), .getStatistics] ∧
    (GatewayCall.getPredictionHistory (.string "soil") (.number (.fin 50))).request.params =
      [("limit", .number (.fin 50)), ("prediction_type", .string "soil")] :=
  ⟨(dashboard_filter_sent_to_server { Dashboard.init with filter := "soil" } Dashboard.init
      "soil" historyOne .null true (Or.inr (Or.inl rfl))).1 rfl,
   congrArg HttpRequest.params
     (dashboard_filter_sent_to_server { Dashboard.init with filter := "soil" } Dashboard.init
      "soil" historyOne .null true (Or.inr (Or.inl rfl))).2.1⟩

/-! ## Image and location validation (C8, C9, C10) -/

/-- C8. When the first selected file has a declared type that does not start
with `image/`, `handleImageSelect` changes the error to `Please select a valid
image file` and nothing else, and the event issues no gateway call. -/
theorem disease_rejects_non_image (sys : Sys DiseaseDetection.State Unit) (file : File)
    (others : List File) (objectUrl : String)
    (htype : ¬ ∃ rest : String, file.type = "image/" ++ rest) :
    DiseaseDetection.handleImageSelect (file :: others) objectUrl sys.view =
      { sys.view with error := .string "Please select a valid image file" } ∧
    DiseaseDetection.step sys (.selectImage (file :: others) objectUrl) =
      some { sys with
        view := { sys.view with error := .string "Please select a valid image file" } } := by
  have h : DiseaseDetection.isImageType file = false := by
    cases hi : DiseaseDetection.isImageType file with
    | false => rfl
    | true => exact absurd ((isImageType_iff file).mp hi) htype
  simp [DiseaseDetection.step, DiseaseDetection.handleImageSelect, h]

/-- C8, witness: a file of declared type `text/plain` selected on the first
render. -/
theorem disease_rejects_non_image_witness :
    DiseaseDetection.handleImageSelect [notesTxt] "blob:1" DiseaseDetection.start.view =
      { DiseaseDetection.start.view with error := .string "Please select a valid image file" } ∧
    DiseaseDetection.step DiseaseDetection.start (.selectImage [notesTxt] "blob:1") =
      some { DiseaseDetection.start with
        view := { DiseaseDetection.start.view with
          error := .string "Please select a valid image file" } } :=
  disease_rejects_non_image DiseaseDetection.start notesTxt [] "blob:1"
    (fun h => by
      have hi := (isImageType_iff notesTxt).mpr h
      revert hi
      decide)

/-- C9. When the location is empty or made of white space only, `handleSubmit`
of the weather page sets the error to `Please enter a location`, issues no
gateway call and leaves `loading`, `weather` and the location as they were. -/
theorem weather_blank_location_rejected (sys : Sys WeatherAdvisory.State WeatherAdvisory.Task)
    (hblank : ∀ c ∈ sys.view.location.data, isJSWhiteSpace c = true) :
    WeatherAdvisory.handleSubmit sys.view =
      ({ sys.view with error := .string "Please enter a location" }, []) ∧
    WeatherAdvisory.step sys .submit =
      some { sys with view := { sys.view with error := .string "Please enter a location" } } := by
  have h : jsTrim sys.view.location = "" := jsTrim_blank _ hblank
  simp [WeatherAdvisory.step, WeatherAdvisory.handleSubmit, h, JSValue.truthy]

/-- C9, witness: a location of three blanks, with a result on display. -/
theorem weather_blank_location_rejected_witness :
    WeatherAdvisory.handleSubmit
        { WeatherAdvisory.init with location := "   ", weather := weatherPune } =
      ({ location := "   ", weather := weatherPune, loading := false,
         error := .string "Please enter a location" }, []) ∧
    WeatherAdvisory.step
        { view := { WeatherAdvisory.init with location := "   ", weather := weatherPune },
          pending := [], calls := [] } .submit =
      some { view := { location := "   ", weather := weatherPune, loading := false,
                       error := .string "Please enter a location" },
             pending := [], calls := [] } :=
  weather_blank_location_rejected
    { view := { WeatherAdvisory.init with location := "   ", weather := weatherPune },
      pending := [], calls := [] }
    (by decide)

/-- C10, counterexample. With the location ` Delhi ` (a blank on each side),
`handleSubmit` calls `getWeatherAdvisory` with the location as typed, so the
query parameter is ` Delhi ` and not its trimmed form `Delhi`. -/
theorem weather_location_sent_untrimmed :
    (WeatherAdvisory.handleSubmit { WeatherAdvisory.init with location := " Delhi " }).2 =
      [.getWeatherAdvisory (.string " Delhi ")] ∧
    (GatewayCall.getWeatherAdvisory (.string " Delhi ")).request.params =
      [("location", .string " Delhi ")] ∧
    jsTrim " Delhi " = "Delhi" ∧
    JSValue.string " Delhi " ≠ JSValue.string (jsTrim " Delhi ") := by
  have h : jsTrim " Delhi " = "Delhi" := by decide
  refine ⟨?_, rfl, h, ?_⟩
  · simp [WeatherAdvisory.handleSubmit, h, JSValue.truthy]
  · rw [h]
    simp

/-- C10, as amended. When the location has a character that is not white
space, `handleSubmit` of the weather page calls `getWeatherAdvisory` with the
location exactly as held in the state, so the `location` query parameter of
`GET /predict/weather` is that string, untrimmed. -/
theorem weather_location_passed_as_typed (s : WeatherAdvisory.State)
    (hs : ∃ c ∈ s.location.data, isJSWhiteSpace c = false) :
    WeatherAdvisory.handleSubmit s =
      ({ s with loading := true, error := .null },
       [.getWeatherAdvisory (.string s.location)]) ∧
    (GatewayCall.getWeatherAdvisory (.string s.location)).request =
      { method := "GET", url := "/predict/weather",
        params := [("location", .string s.location)],
        body := .none, contentType := "application/json" } := by
  have h : jsTrim s.location ≠ "" := jsTrim_not_blank _ hs
  refine ⟨?_, rfl⟩
  simp [WeatherAdvisory.handleSubmit, h, JSValue.truthy]

/-- C10, witness: the location ` Delhi `. -/
theorem weather_location_passed_as_typed_witness :
    WeatherAdvisory.handleSubmit { WeatherAdvisory.init with location := " Delhi " } =
      ({ location := " Delhi ", weather := .null, loading := true, error := .null },
       [.getWeatherAdvisory (.string " Delhi ")]) ∧
    (GatewayCall.getWeatherAdvisory (.string " Delhi ")).request =
      { method := "GET", url := "/predict/weather",
        params := [("location", .string " Delhi ")],
        body := .none, contentType := "application/json" } :=
  weather_location_passed_as_typed { WeatherAdvisory.init with location := " Delhi " }
    ⟨'D', by decide, by decide⟩

/-! ## Error messages, round trip and the gateway (C11, C12, C13, C14) -/

theorem errorMessage_eq (err : AxiosError) (fallback : String) :
    errorMessage err fallback = (errorDetail err).or (.string fallback) := by
  unfold errorMessage errorDetail
  cases err.response <;> rfl

/-- C11, counterexample. A 422 failure whose `detail` is a list of validation
entries carries no detail string; the soil page then does not show its generic
message: its error becomes the list itself. -/
theorem list_detail_becomes_the_error :
    errorDetail rejectedListDetail =
      .array [.object [("loc", .array [.string "body", .string "nitrogen"]),
                       ("msg", .string "field required")]] ∧
    (SoilRecommendation.handleSubmitSettled (.error rejectedListDetail)
      SoilRecommendation.init).error =
      .array [.object [("loc", .array [.string "body", .string "nitrogen"]),
                       ("msg", .string "field required")]] ∧
    (SoilRecommendation.handleSubmitSettled (.error rejectedListDetail)
      SoilRecommendation.init).error ≠
      .string "Failed to get recommendation. Please try again." := by
  have h : errorDetail rejectedListDetail =
      .array [.object [("loc", .array [.string "body", .string "nitrogen"]),
                       ("msg", .string "field required")]] := by
    simp [errorDetail, rejectedListDetail, JSValue.optGet, JSValue.isNullish, JSValue.get,
      List.lookup]
  have e : (SoilRecommendation.handleSubmitSettled (.error rejectedListDetail)
      SoilRecommendation.init).error =
      .array [.object [("loc", .array [.string "body", .string "nitrogen"]),
                       ("msg", .string "field required")]] := by
    simp [SoilRecommendation.handleSubmitSettled, errorMessage_eq, h, JSValue.or,
      JSValue.truthy]
  refine ⟨h, e, ?_⟩
  rw [e]
  simp

/-- C11, as amended. In the disease, soil and weather pages (both weather
handlers), after every failed gateway call the error is the server detail
`err.response.data.detail` when that detail is truthy, whatever its type, and
the fixed generic message of the page otherwise. So a detail that is a string
other than the empty one is shown as it is; no response, no data, no detail, a
`null` detail and an empty detail give the generic message. -/
theorem server_detail_or_generic (err : AxiosError) (d : DiseaseDetection.State)
    (s : SoilRecommendation.State) (w : WeatherAdvisory.State) :
    (DiseaseDetection.handleSubmitSettled (.error err) d).error =
      (if (errorDetail err).truthy then errorDetail err
       else .string "Failed to analyze image. Please try again.") ∧
    (SoilRecommendation.handleSubmitSettled (.error err) s).error =
      (if (errorDetail err).truthy then errorDetail err
       else .string "Failed to get recommendation. Please try again.") ∧
    (WeatherAdvisory.handleSubmitSettled (.error err) w).error =
      (if (errorDetail err).truthy then errorDetail err
       else .string "Failed to fetch weather data. Please try again.") ∧
    (WeatherAdvisory.selectCitySettled (.error err) w).error =
      (if (errorDetail err).truthy then errorDetail err
       else .string "Failed to fetch weather data. Please try again.") ∧
    (∀ detail : String, errorDetail err = .string detail → detail ≠ "" →
      (DiseaseDetection.handleSubmitSettled (.error err) d).error = .string detail ∧
      (SoilRecommendation.handleSubmitSettled (.error err) s).error = .string detail ∧
      (WeatherAdvisory.handleSubmitSettled (.error err) w).error = .string detail ∧
      (WeatherAdvisory.selectCitySettled (.error err) w).error = .string detail) ∧
    (errorDetail err = .undefined ∨ errorDetail err = .null ∨ errorDetail err = .string "" →
      (DiseaseDetection.handleSubmitSettled (.error err) d).error =
        .string "Failed to analyze image. Please try again." ∧
      (SoilRecommendation.handleSubmitSettled (.error err) s).error =
        .string "Failed to get recommendation. Please try again." ∧
      (WeatherAdvisory.handleSubmitSettled (.error err) w).error =
        .string "Failed to fetch weather data. Please try again." ∧
      (WeatherAdvisory.selectCitySettled (.error err) w).error =
        .string "Failed to fetch weather data. Please try again.") ∧
    (err.response = none → errorDetail err = .undefined) ∧
    (∀ response, err.response = some response → response.data.isNullish = true →
      errorDetail err = .undefined) ∧
    (∀ response props, err.response = some response → response.data = .object props →
      props.lookup "detail" = none → errorDetail err = .undefined) := by
  refine ⟨?_, ?_, ?_, ?_, ?_, ?_, ?_, ?_, ?_⟩
  · simp [DiseaseDetection.handleSubmitSettled, errorMessage_eq, JSValue.or]
  · simp [SoilRecommendation.handleSubmitSettled, errorMessage_eq, JSValue.or]
  · simp [WeatherAdvisory.handleSubmitSettled, errorMessage_eq, JSValue.or]
  · simp [WeatherAdvisory.selectCitySettled, errorMessage_eq, JSValue.or]
  · intro detail hd hne
    simp [DiseaseDetection.handleSubmitSettled, SoilRecommendation.handleSubmitSettled,
      WeatherAdvisory.handleSubmitSettled, WeatherAdvisory.selectCitySettled,
      errorMessage_eq, hd, JSValue.or, JSValue.truthy, hne]
  · intro h
    rcases h with h | h | h <;>
      simp [DiseaseDetection.handleSubmitSettled, SoilRecommendation.handleSubmitSettled,
        WeatherAdvisory.handleSubmitSettled, WeatherAdvisory.selectCitySettled,
        errorMessage_eq, h, JSValue.or, JSValue.truthy]
  · intro h
    simp [errorDetail, h]
  · intro response h hn
    simp [errorDetail, h, JSValue.optGet, hn]
  · intro response props h hp hl
    simp [errorDetail, h, JSValue.optGet, hp, JSValue.isNullish, JSValue.get, hl]

/-- C11, witness: a rejection with the detail `File must be an image`, and a
rejection without a response. -/
theorem server_detail_or_generic_witness :
    (DiseaseDetection.handleSubmitSettled (.error rejectedWithDetail)
      DiseaseDetection.init).error = .string "File must be an image" ∧
    (SoilRecommendation.handleSubmitSettled (.error networkError)
      SoilRecommendation.init).error =
        .string "Failed to get recommendation. Please try again." :=
  ⟨((server_detail_or_generic rejectedWithDetail DiseaseDetection.init SoilRecommendation.init
      WeatherAdvisory.init).2.2.2.2.1 "File must be an image"
      (by simp [errorDetail, rejectedWithDetail, JSValue.optGet, JSValue.isNullish,
            JSValue.get, List.lookup])
      (by decide)).1,
   ((server_detail_or_generic networkError DiseaseDetection.init SoilRecommendation.init
      WeatherAdvisory.init).2.2.2.2.2.1 (Or.inl rfl)).2.1⟩

theorem formRoundTrip_inRange : SoilRecommendation.FieldsInRange formRoundTrip := by
  unfold SoilRecommendation.FieldsInRange
  rw [show formRoundTrip.nitrogen = "50" from rfl, parseFloat_50,
    show formRoundTrip.phosphorus = "40" from rfl, parseFloat_40,
    show formRoundTrip.potassium = "30" from rfl, parseFloat_30,
    show formRoundTrip.ph = "6.5" from rfl, parseFloat_6_5,
    show formRoundTrip.rainfall = "120" from rfl, parseFloat_120]
  simp only [SoilRecommendation.inRange]
  norm_num

/-- C12. For every soil form (in range or not) and every response `r`, a
submit from the idle state followed by the successful settlement with `r`
issues one call to `predictSoilRecommendation` and leaves the form as typed,
`prediction = r`, `error = null` and `loading = false`. In particular the form
50, 40, 30, 6.5, 120, which is in range, typed from the first render and
answered with `recommended_crop: rice, fertilizer_advice: apply urea`, ends
with a prediction whose crop is `rice` and whose fertilizer advice is
`apply urea`. -/
theorem soil_round_trip (form : SoilRecommendation.FormData) (r : JSValue) :
    SoilRecommendation.run
        { view := { SoilRecommendation.init with formData := form }, pending := [], calls := [] }
        [.submit, .settle 0 (GatewayCall.result
          (.predictSoilRecommendation (SoilRecommendation.soilData form))
          (.ok { status := 200, data := r }))] =
      some { view := { formData := form, prediction := r, loading := false, error := .null },
             pending := [],
             calls := [.predictSoilRecommendation (SoilRecommendation.soilData form)] } ∧
    SoilRecommendation.FieldsInRange formRoundTrip ∧
    (SoilRecommendation.run SoilRecommendation.start
        (fillSoilForm ++ [.submit, .settle 0 (.ok soilRice)])).map
      (fun t => (t.view.formData, t.view.prediction.get "recommended_crop",
        t.view.prediction.get "fertilizer_advice", t.view.error.isNullish, t.view.loading,
        t.pending.length)) =
      some (formRoundTrip, .string "rice", .string "apply urea", true, false, 0) := by
  refine ⟨rfl, formRoundTrip_inRange, ?_⟩
  have h : (SoilRecommendation.run SoilRecommendation.start
      (fillSoilForm ++ [.submit, .settle 0 (.ok soilRice)])) =
      some { view := { formData := formRoundTrip, prediction := soilRice, loading := false,
                       error := .null },
             pending := [],
             calls := [.predictSoilRecommendation (SoilRecommendation.soilData formRoundTrip)] } :=
    rfl
  rw [h]
  simp [soilRice, JSValue.get, List.lookup, JSValue.isNullish]

theorem gateway_result_unfold (c : GatewayCall) (err : AxiosError) :
    c.result (.error err) = .error err := by
  cases c <;> rfl

/-- C13, counterexample. A 200 response whose body is a page of text makes
`predictSoilRecommendation` resolve with that text, which the soil page stores
as its prediction with no error; and a transport failure makes the gateway
promise reject with the transport error itself. -/
theorem gateway_passes_malformed_body :
    (GatewayCall.predictSoilRecommendation (SoilRecommendation.soilData formRoundTrip)).result
        (.ok htmlResponse) = .ok (.string "<html>Bad gateway</html>") ∧
    (SoilRecommendation.run
        { view := { SoilRecommendation.init with formData := formRoundTrip },
          pending := [], calls := [] }
        [.submit, .settle 0 ((GatewayCall.predictSoilRecommendation
          (SoilRecommendation.soilData formRoundTrip)).result (.ok htmlResponse))]).map
      (fun t => (t.view.prediction, t.view.error)) =
      some (.string "<html>Bad gateway</html>", .null) ∧
    GatewayCall.getStatistics.result (.error networkError) = .error networkError :=
  ⟨rfl, rfl, rfl⟩

/-- C13, as amended. Each of the five gateway functions, for every outcome of
the transport, resolves with `response.data` as it is when the transport
resolves, whatever the shape of the body, and rejects with the error of the
transport, unclassified, when the transport rejects. -/
theorem gateway_result_is_transport_outcome (c : GatewayCall) (response : AxiosResponse)
    (err : AxiosError) :
    c.result (.ok response) = .ok response.data ∧ c.result (.error err) = .error err := by
  cases c <;> exact ⟨rfl, rfl⟩

/-- C14. A gateway call reports the failure of its transport as it is, with no
second attempt; each submit handler issues at most one gateway call, a
dashboard fetch cycle issues `getPredictionHistory` once and `getStatistics`
once; and the settlement of a request, failed or not, issues no call and
leaves one outstanding request fewer, on the four pages. -/
theorem no_retries (c : GatewayCall) (err : AxiosError) (o : Outcome) (h st : Outcome)
    (historyFirst : Bool) (k : Nat) (city : String)
    (d : Sys DiseaseDetection.State Unit) (s : Sys SoilRecommendation.State Unit)
    (w : Sys WeatherAdvisory.State WeatherAdvisory.Task) (b : Sys Dashboard.State Unit)
    (hd : k < d.pending.length) (hs : k < s.pending.length) (hw : k < w.pending.length)
    (hb : k < b.pending.length) :
    c.result (.error err) = .error err ∧
    (DiseaseDetection.handleSubmit d.view).2.length ≤ 1 ∧
    (SoilRecommendation.handleSubmit s.view).2.length = 1 ∧
    (WeatherAdvisory.handleSubmit w.view).2.length ≤ 1 ∧
    (WeatherAdvisory.selectCity city w.view).2.length = 1 ∧
    (∃ predictionType, (Dashboard.fetchData b.view).2 =
      [.getPredictionHistory predictionType (.number (.fin 50)), .getStatistics]) ∧
    (DiseaseDetection.step d (.settle k o)).map (fun t => (t.calls.length, t.pending.length + 1))
      = some (d.calls.length, d.pending.length) ∧
    (SoilRecommendation.step s (.settle k o)).map
      (fun t => (t.calls.length, t.pending.length + 1)) =
      some (s.calls.length, s.pending.length) ∧
    (WeatherAdvisory.step w (.settle k o)).map (fun t => (t.calls.length, t.pending.length + 1))
      = some (w.calls.length, w.pending.length) ∧
    (Dashboard.step b (.settle k h st historyFirst)).map
      (fun t => (t.calls.length, t.pending.length + 1)) =
      some (b.calls.length, b.pending.length) := by
  have hd1 : d.pending[k]? = some () := List.getElem?_eq_getElem hd
  have hs1 : s.pending[k]? = some () := List.getElem?_eq_getElem hs
  have hb1 : b.pending[k]? = some () := List.getElem?_eq_getElem hb
  have hw1 : w.pending[k]? = some (w.pending.get ⟨k, hw⟩) := List.getElem?_eq_getElem hw
  refine ⟨(gateway_result_unfold c err), ?_, rfl, ?_, rfl, ⟨_, rfl⟩, ?_, ?_, ?_, ?_⟩
  · unfold DiseaseDetection.handleSubmit
    cases d.view.selectedImage <;> simp
  · unfold WeatherAdvisory.handleSubmit
    split <;> simp
  · simp [DiseaseDetection.step, hd1, List.length_eraseIdx, hd]
    omega
  · simp [SoilRecommendation.step, hs1, List.length_eraseIdx, hs]
    omega
  · simp [WeatherAdvisory.step, hw1, List.length_eraseIdx, hw]
    omega
  · simp [Dashboard.step, hb1, List.length_eraseIdx, hb]
    omega

/-- C14, witness: one request outstanding on each page, failing without a
response. -/
theorem no_retries_witness :
    (DiseaseDetection.step
        { view := { DiseaseDetection.init with selectedImage := some leafPng, loading := true },
          pending := [()], calls := [.predictDisease leafPng] }
        (.settle 0 (.error networkError))).map
      (fun t => (t.calls.length, t.pending.length + 1)) = some (1, 1) ∧
    (Dashboard.step
        { view := Dashboard.init, pending := [()],
          calls := [.getPredictionHistory .null (.number (.fin 50)), .getStatistics] }
        (.settle 0 (.error networkError) (.error networkError) true)).map
      (fun t => (t.calls.length, t.pending.length + 1)) = some (2, 1) :=
  ⟨(no_retries .getStatistics networkError (.error networkError) (.error networkError)
      (.error networkError) true 0 "Delhi"
      { view := { DiseaseDetection.init with selectedImage := some leafPng, loading := true },
        pending := [()], calls := [.predictDisease leafPng] }
      { view := SoilRecommendation.init, pending := [()],
        calls := [.predictSoilRecommendation (SoilRecommendation.soilData formRoundTrip)] }
      { view := WeatherAdvisory.init, pending := [.selectCity],
        calls := [.getWeatherAdvisory (.string "Delhi")] }
      { view := Dashboard.init, pending := [()],
        calls := [.getPredictionHistory .null (.number (.fin 50)), .getStatistics] }
      (by decide) (by decide) (by decide) (by decide)).2.2.2.2.2.2.1,
   (no_retries .getStatistics networkError (.error networkError) (.error networkError)
      (.error networkError) true 0 "Delhi"
      { view := { DiseaseDetection.init with selectedImage := some leafPng, loading := true },
        pending := [()], calls := [.predictDisease leafPng] }
      { view := SoilRecommendation.init, pending := [()],
        calls := [.predictSoilRecommendation (SoilRecommendation.soilData formRoundTrip)] }
      { view := WeatherAdvisory.init, pending := [.selectCity],
        calls := [.getWeatherAdvisory (.string "Delhi")] }
      { view := Dashboard.init, pending := [()],
        calls := [.getPredictionHistory .null (.number (.fin 50)), .getStatistics] }
      (by decide) (by decide) (by decide) (by decide)).2.2.2.2.2.2.2.2.2⟩

/-! ## The history list (C15, C16, C17) -/

theorem renderRecords_map (up : String → String) (items : List JSValue)
    (views : List Dashboard.RecordView) (h : Dashboard.renderRecords up items = some views) :
    items.map (Dashboard.renderRecord up) = views.map some := by
  induction items generalizing views with
  | nil =>
    simp [Dashboard.renderRecords] at h
    simp [← h]
  | cons p ps ih =>
    unfold Dashboard.renderRecords at h
    cases hp : Dashboard.renderRecord up p with
    | none => simp [hp] at h
    | some v =>
      cases hps : Dashboard.renderRecords up ps with
      | none => simp [hp, hps] at h
      | some vs =>
        simp [hp, hps] at h
        simp [← h, hp, ih vs hps]

theorem renderRecord_key (up : String → String) (p : JSValue) (v : Dashboard.RecordView)
    (h : Dashboard.renderRecord up p = some v) : v.key = p.get "id" := by
  unfold Dashboard.renderRecord at h
  simp only [JSValue.prop, bind, Option.bind] at h
  cases hn : p.isNullish with
  | true => simp [hn] at h
  | false =>
    simp only [hn] at h
    cases h1 : Dashboard.typeLabel up (p.get "prediction_type") with
    | none => simp [h1] at h
    | some l =>
      cases h2 : Dashboard.renderDiseaseBlock p (p.get "prediction_type") with
      | none => simp [h1, h2] at h
      | some b1 =>
        cases h3 : Dashboard.renderSoilBlock p (p.get "prediction_type") with
        | none => simp [h1, h2, h3] at h
        | some b2 =>
          cases h4 : Dashboard.renderWeatherBlock p (p.get "prediction_type") with
          | none => simp [h1, h2, h3, h4] at h
          | some b3 =>
            simp [h1, h2, h3, h4, pure] at h
            rw [← h]

theorem renderRecords_keys (up : String → String) (items : List JSValue)
    (views : List Dashboard.RecordView) (h : Dashboard.renderRecords up items = some views) :
    views.map (fun v => v.key) = items.map (fun p => p.get "id") := by
  induction items generalizing views with
  | nil =>
    simp [Dashboard.renderRecords] at h
    simp [← h]
  | cons p ps ih =>
    unfold Dashboard.renderRecords at h
    cases hp : Dashboard.renderRecord up p with
    | none => simp [hp] at h
    | some v =>
      cases hps : Dashboard.renderRecords up ps with
      | none => simp [hp, hps] at h
      | some vs =>
        simp [hp, hps] at h
        simp [← h, renderRecord_key up p v hp, ih vs hps]

/-- C15. After a successful fetch cycle the `history` cell is the returned list
itself, whatever was held before. When the page renders (every record of the
list renders, the statistics are truthy and render, and the error banner
renders), the card shows one record view per record, in the order of the list:
the view at each position is the rendering of the record at that position, and
the React keys are the ids of the records in the same order. -/
theorem history_order_preserved (toUpperCase : String → String) (cur : Dashboard.State)
    (items : List JSValue) (statsData : JSValue) (historyFirst : Bool)
    (views : List Dashboard.RecordView)
    (hrender : Dashboard.renderRecords toUpperCase items = some views)
    (hstats : statsData.truthy = true)
    (hcards : (Dashboard.renderStatistics statsData).isSome = true)
    (hbanner : (Dashboard.renderErrorBanner cur.error).isSome = true)
    (hne : items ≠ []) :
    (Dashboard.fetchDataSettled
      (Dashboard.promiseAll (.ok (.array items)) (.ok statsData) historyFirst) cur).history =
      .array items ∧
    Dashboard.renderHistoryCard toUpperCase (Dashboard.fetchDataSettled
      (Dashboard.promiseAll (.ok (.array items)) (.ok statsData) historyFirst) cur) =
      some (some (.records views)) ∧
    items.map (Dashboard.renderRecord toUpperCase) = views.map some ∧
    views.length = items.length ∧
    views.map (fun v => v.key) = items.map (fun p => p.get "id") := by
  refine ⟨rfl, ?_, renderRecords_map toUpperCase items views hrender, ?_,
    renderRecords_keys toUpperCase items views hrender⟩
  · have hlen : items.length ≠ 0 := by
      intro h0
      exact hne (List.length_eq_zero.mp h0)
    obtain ⟨banner, hb⟩ := Option.isSome_iff_exists.mp hbanner
    obtain ⟨cards, hc⟩ := Option.isSome_iff_exists.mp hcards
    simp [Dashboard.renderHistoryCard, Dashboard.fetchDataSettled, Dashboard.promiseAll,
      hstats, hb, hc, Dashboard.renderHistory, hlen, hrender]
  · have h := congrArg List.length (renderRecords_map toUpperCase items views hrender)
    simpa using h.symm

theorem renderRecord_recordSoil :
    Dashboard.renderRecord upperAscii recordSoil = some viewSoil := by
  rfl

theorem renderRecord_recordWeather :
    Dashboard.renderRecord upperAscii recordWeather = some viewWeather := by
  rfl

theorem renderRecord_recordCrop :
    Dashboard.renderRecord upperAscii recordCrop = some viewCrop := by
  rfl

/-- C15, witness: a weather record (id 2) followed by a soil record (id 1). -/
theorem history_order_preserved_witness :
    Dashboard.renderHistoryCard upperAscii (Dashboard.fetchDataSettled
      (Dashboard.promiseAll (.ok (.array [recordWeather, recordSoil])) (.ok statsOne) true)
      Dashboard.init) = some (some (.records [viewWeather, viewSoil])) ∧
    [viewWeather, viewSoil].map (fun v => v.key) =
      [recordWeather, recordSoil].map (fun p => p.get "id") :=
  ⟨(history_order_preserved upperAscii Dashboard.init [recordWeather, recordSoil] statsOne true
      [viewWeather, viewSoil]
      (by simp [Dashboard.renderRecords, renderRecord_recordSoil, renderRecord_recordWeather])
      rfl rfl rfl (by simp)).2.1,
   (history_order_preserved upperAscii Dashboard.init [recordWeather, recordSoil] statsOne true
      [viewWeather, viewSoil]
      (by simp [Dashboard.renderRecords, renderRecord_recordSoil, renderRecord_recordWeather])
      rfl rfl rfl (by simp)).2.2.2.2⟩

theorem dashboard_step_calls (sys t : Sys Dashboard.State Unit) (e : Dashboard.Event)
    (hstep : Dashboard.step sys e = some t)
    (hinv : ∀ c ∈ sys.calls, c = GatewayCall.getStatistics ∨
      ∃ predictionType, c = GatewayCall.getPredictionHistory predictionType (.number (.fin 50))) :
    ∀ c ∈ t.calls, c = GatewayCall.getStatistics ∨
      ∃ predictionType, c = GatewayCall.getPredictionHistory predictionType (.number (.fin 50)) := by
  have hfetch : ∀ v : Dashboard.State, ∀ c ∈ sys.calls ++ (Dashboard.fetchData v).2,
      c = GatewayCall.getStatistics ∨
      ∃ predictionType, c = GatewayCall.getPredictionHistory predictionType (.number (.fin 50)) := by
    intro v c hc
    rcases List.mem_append.mp hc with h | h
    · exact hinv c h
    · simp only [Dashboard.fetchData, List.mem_cons, List.mem_singleton, List.not_mem_nil,
        or_false] at h
      rcases h with h | h
      · exact Or.inr ⟨_, h⟩
      · exact Or.inl h
  cases e with
  | mount =>
    simp only [Dashboard.step, Option.some.injEq] at hstep
    subst hstep
    exact hfetch _
  | refresh =>
    simp only [Dashboard.step, Option.some.injEq] at hstep
    subst hstep
    exact hfetch _
  | setFilter type =>
    simp only [Dashboard.step] at hstep
    split at hstep
    · simp only [Option.some.injEq] at hstep
      subst hstep
      exact hinv
    · simp only [Option.some.injEq] at hstep
      subst hstep
      exact hfetch _
  | settle k h st historyFirst =>
    simp only [Dashboard.step] at hstep
    split at hstep
    · cases hstep
    · simp only [Option.some.injEq] at hstep
      subst hstep
      exact hinv

theorem dashboard_run_calls (es : List Dashboard.Event) (sys t : Sys Dashboard.State Unit)
    (hrun : Dashboard.run sys es = some t)
    (hinv : ∀ c ∈ sys.calls, c = GatewayCall.getStatistics ∨
      ∃ predictionType, c = GatewayCall.getPredictionHistory predictionType (.number (.fin 50))) :
    ∀ c ∈ t.calls, c = GatewayCall.getStatistics ∨
      ∃ predictionType, c = GatewayCall.getPredictionHistory predictionType (.number (.fin 50)) := by
  induction es generalizing sys with
  | nil =>
    simp only [Dashboard.run, Option.some.injEq] at hrun
    subst hrun
    exact hinv
  | cons e es ih =>
    simp only [Dashboard.run] at hrun
    cases hstep : Dashboard.step sys e with
    | none => simp [hstep] at hrun
    | some u =>
      rw [hstep] at hrun
      exact ih u hrun (dashboard_step_calls sys u e hstep hinv)

theorem renderRecords_replicate (n : Nat) :
    Dashboard.renderRecords upperAscii (List.replicate n recordSoil) =
      some (List.replicate n viewSoil) := by
  induction n with
  | zero => rfl
  | succ n ih =>
    rw [List.replicate_succ, Dashboard.renderRecords, renderRecord_recordSoil, ih]
    rfl

/-- C16, counterexample. The first fetch cycle of the dashboard is answered
with a history of fifty-one records: the page then holds fifty-one records and
its history card shows fifty-one record views. -/
theorem dashboard_holds_fifty_one :
    (Dashboard.run Dashboard.start
        [.mount, .settle 0 (.ok historyFiftyOne) (.ok statsOne) true]).map
      (fun t => (Dashboard.historyCount t.view.history,
        (Dashboard.renderHistoryCard upperAscii t.view).map
          (fun card => card.map (fun v => v.count)))) =
      some (51, some (some 51)) := by
  have hrun : Dashboard.run Dashboard.start
      [.mount, .settle 0 (.ok historyFiftyOne) (.ok statsOne) true] =
      some { view := { history := historyFiftyOne, statistics := statsOne, loading := false,
                       filter := "all", error := .null },
             pending := [],
             calls := [.getPredictionHistory .null (.number (.fin 50)), .getStatistics] } := rfl
  have hstats : statsOne.truthy = true := rfl
  have hcount : Dashboard.historyCount historyFiftyOne = 51 := by
    simp only [Dashboard.historyCount, historyFiftyOne, List.length_replicate]
  have hcards : Dashboard.renderStatistics statsOne =
      some (.number (.fin 1), .number (.fin 0), .number (.fin 1), .number (.fin 0)) := rfl
  have hbanner : Dashboard.renderErrorBanner .null = some none := rfl
  have hhist : Dashboard.renderHistory upperAscii historyFiftyOne =
      some (.records (List.replicate 51 viewSoil)) := by
    simp only [Dashboard.renderHistory, historyFiftyOne, List.length_replicate,
      renderRecords_replicate]
    rfl
  rw [hrun]
  simp [Dashboard.renderHistoryCard, hstats, hcards, hbanner, hhist, hcount,
    Dashboard.HistoryView.count]

/-- C16, as amended. Every history request the dashboard has issued, in every
reachable state, asks the server for at most fifty records (`limit` is 50);
the page holds the returned list as it is, so the held list has at most fifty
records whenever the returned list has. -/
theorem dashboard_limit_is_requested (es : List Dashboard.Event) (t : Sys Dashboard.State Unit)
    (cur : Dashboard.State) (historyData statsData : JSValue) (historyFirst : Bool)
    (hrun : Dashboard.run Dashboard.start es = some t) :
    (∀ c ∈ t.calls, c = GatewayCall.getStatistics ∨
      ∃ predictionType,
        c = GatewayCall.getPredictionHistory predictionType (.number (.fin 50)) ∧
        c.request.params.lookup "limit" = some (.number (.fin 50))) ∧
    (Dashboard.fetchDataSettled
      (Dashboard.promiseAll (.ok historyData) (.ok statsData) historyFirst) cur).history =
      historyData ∧
    (Dashboard.historyCount historyData ≤ 50 →
      Dashboard.historyCount (Dashboard.fetchDataSettled
        (Dashboard.promiseAll (.ok historyData) (.ok statsData) historyFirst) cur).history ≤ 50) := by
  refine ⟨?_, rfl, fun h => h⟩
  intro c hc
  have hinv := dashboard_run_calls es Dashboard.start t hrun
    (by intro c hc; simp [Dashboard.start] at hc) c hc
  rcases hinv with h | ⟨predictionType, h⟩
  · exact Or.inl h
  · refine Or.inr ⟨predictionType, h, ?_⟩
    subst h
    simp only [GatewayCall.request, getPredictionHistory, historyParams, withDefault]
    split <;> simp [setProp, List.lookup]

/-- C16, witness: the first cycle answered with one record, then a change of
filter. -/
theorem dashboard_limit_is_requested_witness :
    (Dashboard.fetchDataSettled
      (Dashboard.promiseAll (.ok historySoilOnly) (.ok statsOne) true) Dashboard.init).history =
      historySoilOnly ∧
    Dashboard.historyCount (Dashboard.fetchDataSettled
      (Dashboard.promiseAll (.ok historySoilOnly) (.ok statsOne) true) Dashboard.init).history
      ≤ 50 :=
  ⟨(dashboard_limit_is_requested
      [.mount, .settle 0 (.ok historySoilOnly) (.ok statsOne) true, .setFilter "soil"]
      { view := { history := historySoilOnly, statistics := statsOne, loading := true,
                  filter := "soil", error := .null },
        pending := [()],
        calls := [.getPredictionHistory .null (.number (.fin 50)), .getStatistics,
          .getPredictionHistory (.string "soil") (.number (.fin 50)), .getStatistics] }
      Dashboard.init historySoilOnly statsOne true rfl).2.1,
   (dashboard_limit_is_requested
      [.mount, .settle 0 (.ok historySoilOnly) (.ok statsOne) true, .setFilter "soil"]
      { view := { history := historySoilOnly, statistics := statsOne, loading := true,
                  filter := "soil", error := .null },
        pending := [()],
        calls := [.getPredictionHistory .null (.number (.fin 50)), .getStatistics,
          .getPredictionHistory (.string "soil") (.number (.fin 50)), .getStatistics] }
      Dashboard.init historySoilOnly statsOne true rfl).2.2 (by decide)⟩

/-- C17, counterexample. A record of type `crop` is rendered with the label
`CROP`, not `unknown`; and a record without `prediction_type` makes the
rendering of the record, and of the list that holds it, throw. -/
theorem unknown_type_not_rendered_as_unknown :
    (Dashboard.renderRecord upperAscii recordCrop).map (fun v => v.label) = some "CROP" ∧
    "CROP" ≠ "unknown" ∧
    recordNoType.get "prediction_type" = .undefined ∧
    Dashboard.renderRecord upperAscii recordNoType = none ∧
    Dashboard.renderHistory upperAscii (.array [recordNoType]) = none := by
  refine ⟨rfl, by decide, rfl, rfl, rfl⟩

/-- C17, as amended. A history record whose `prediction_type` is a string other
than `disease`, `soil` and `weather` renders without failure: it gets the
default icon and the gray colour classes, its label is what `toUpperCase()`
returns for the type, and none of the disease, soil and weather blocks is
shown. -/
theorem unknown_string_type_renders_default (toUpperCase : String → String) (p : JSValue)
    (t : String) (htype : p.get "prediction_type" = .string t)
    (hd : t ≠ "disease") (hs : t ≠ "soil") (hw : t ≠ "weather") :
    Dashboard.renderRecord toUpperCase p =
      some { key := p.get "id", icon := "📊", colorClass := "bg-gray-100 text-gray-700",
             label := toUpperCase t,
             confidenceShown := (p.get "confidence").truthy,
             diseaseBlock := none, soilBlock := none, weatherBlock := none,
             createdAt := p.get "created_at" } := by
  have hn : p.isNullish = false := by
    cases p <;> simp [JSValue.get] at htype
    rfl
  simp [Dashboard.renderRecord, JSValue.prop, hn, htype, Dashboard.typeLabel,
    Dashboard.renderDiseaseBlock, Dashboard.renderSoilBlock, Dashboard.renderWeatherBlock,
    Dashboard.strictEqString, hd, hs, hw, Dashboard.getPredictionTypeIcon,
    Dashboard.getPredictionTypeColor]

/-- C17, witness: the record of type `crop`. -/
theorem unknown_string_type_renders_default_witness :
    Dashboard.renderRecord upperAscii recordCrop =
      some { key := recordCrop.get "id", icon := "📊",
             colorClass := "bg-gray-100 text-gray-700",
             label := upperAscii "crop",
             confidenceShown := (recordCrop.get "confidence").truthy,
             diseaseBlock := none, soilBlock := none, weatherBlock := none,
             createdAt := recordCrop.get "created_at" } :=
  unknown_string_type_renders_default upperAscii recordCrop "crop" rfl (by decide) (by decide)
    (by decide)

/-! ## Interleavings on the dashboard, failures and flags (C18, C19, C20) -/

theorem dashboard_run_append (sys : Sys Dashboard.State Unit) (es fs : List Dashboard.Event) :
    Dashboard.run sys (es ++ fs) = (Dashboard.run sys es).bind (fun t => Dashboard.run t fs) := by
  induction es generalizing sys with
  | nil => simp [Dashboard.run]
  | cons e es ih =>
    simp only [List.cons_append, Dashboard.run]
    cases Dashboard.step sys e with
    | none => rfl
    | some t => simpa using ih t

theorem dashboard_two_pending (s2 : Sys Dashboard.State Unit) (h1 st1 h2 st2 : JSValue)
    (f1 f2 : Bool) (htwo : s2.pending.length = 2) :
    (Dashboard.run s2 [.settle 0 (.ok h1) (.ok st1) f1, .settle 0 (.ok h2) (.ok st2) f2]).map
        (fun t => (t.view.history, t.view.statistics, t.pending.length)) = some (h2, st2, 0) ∧
    (Dashboard.run s2 [.settle 1 (.ok h2) (.ok st2) f2, .settle 0 (.ok h1) (.ok st1) f1]).map
        (fun t => (t.view.history, t.view.statistics, t.pending.length)) = some (h1, st1, 0) := by
  obtain ⟨view, pending, calls⟩ := s2
  match pending, htwo with
  | [t1, t2], _ =>
    simp [Dashboard.run, Dashboard.step, Dashboard.fetchDataSettled, Dashboard.promiseAll]

/-- C18, counterexample. The first load is answered with a soil record and a
weather record. The filter `soil` is then selected, and `weather` while the
soil cycle is in flight; the weather cycle settles first and the soil cycle
second. The page renders in each of these states, and once both cycles have
settled the dashboard holds the soil response while the selected filter is
`weather`. -/
theorem dashboard_late_cycle_overwrites :
    Dashboard.run Dashboard.start [.mount, .settle 0 (.ok historyBoth) (.ok statsOne) true] =
      some dashboardLoaded ∧
    (Dashboard.renderHistoryCard upperAscii dashboardLoaded.view).isSome = true ∧
    (Dashboard.run dashboardLoaded [.setFilter "soil", .setFilter "weather"]).map
      (fun t => (t.view.filter, t.pending.length,
        (Dashboard.renderHistoryCard upperAscii t.view).isSome)) = some ("weather", 2, true) ∧
    (Dashboard.run dashboardLoaded
        [.setFilter "soil", .setFilter "weather",
         .settle 1 (.ok historyWeatherOnly) (.ok statsOne) true]).map
      (fun t => (t.view.history, (Dashboard.renderHistoryCard upperAscii t.view).isSome)) =
      some (historyWeatherOnly, true) ∧
    (Dashboard.run dashboardLoaded
        [.setFilter "soil", .setFilter "weather",
         .settle 1 (.ok historyWeatherOnly) (.ok statsOne) true,
         .settle 0 (.ok historySoilOnly) (.ok statsOne) true]).map
      (fun t => (t.view.history, t.view.filter, t.pending.length,
        (Dashboard.renderHistoryCard upperAscii t.view).isSome)) =
      some (historySoilOnly, "weather", 0, true) ∧
    historySoilOnly ≠ historyWeatherOnly := by
  refine ⟨rfl, rfl, rfl, rfl, rfl, ?_⟩
  simp [historySoilOnly, historyWeatherOnly, recordSoil, recordWeather]

/-- C18, as amended. When two fetch cycles of the dashboard are in flight
together and both resolve, the history and the statistics held are those of
the cycle that settled last: the second cycle's when the cycles settle in the
order they were started, the first cycle's when it settles late. -/
theorem dashboard_last_settlement_wins (sys : Sys Dashboard.State Unit)
    (e1 e2 : Dashboard.Event) (h1 st1 h2 st2 : JSValue) (f1 f2 : Bool)
    (htwo : (Dashboard.run sys [e1, e2]).map (fun t => t.pending.length) = some 2) :
    (Dashboard.run sys
        [e1, e2, .settle 0 (.ok h1) (.ok st1) f1, .settle 0 (.ok h2) (.ok st2) f2]).map
        (fun t => (t.view.history, t.view.statistics, t.pending.length)) = some (h2, st2, 0) ∧
    (Dashboard.run sys
        [e1, e2, .settle 1 (.ok h2) (.ok st2) f2, .settle 0 (.ok h1) (.ok st1) f1]).map
        (fun t => (t.view.history, t.view.statistics, t.pending.length)) = some (h1, st1, 0) := by
  have a1 := dashboard_run_append sys [e1, e2]
    [.settle 0 (.ok h1) (.ok st1) f1, .settle 0 (.ok h2) (.ok st2) f2]
  have a2 := dashboard_run_append sys [e1, e2]
    [.settle 1 (.ok h2) (.ok st2) f2, .settle 0 (.ok h1) (.ok st1) f1]
  simp only [List.cons_append, List.nil_append] at a1 a2
  rw [a1, a2]
  cases hrun : Dashboard.run sys [e1, e2] with
  | none => simp [hrun] at htwo
  | some s2 =>
    rw [hrun] at htwo
    simp only [Option.map_some', Option.some.injEq] at htwo
    exact dashboard_two_pending s2 h1 st1 h2 st2 f1 f2 htwo

/-- C18, witness: the filters `soil` then `weather`, selected after the first
load. -/
theorem dashboard_last_settlement_wins_witness :
    (Dashboard.run dashboardLoaded
        [.setFilter "soil", .setFilter "weather",
         .settle 0 (.ok historySoilOnly) (.ok statsOne) true,
         .settle 0 (.ok historyWeatherOnly) (.ok statsOne) true]).map
        (fun t => (t.view.history, t.view.statistics, t.pending.length)) =
      some (historyWeatherOnly, statsOne, 0) ∧
    (Dashboard.run dashboardLoaded
        [.setFilter "soil", .setFilter "weather",
         .settle 1 (.ok historyWeatherOnly) (.ok statsOne) true,
         .settle 0 (.ok historySoilOnly) (.ok statsOne) true]).map
        (fun t => (t.view.history, t.view.statistics, t.pending.length)) =
      some (historySoilOnly, statsOne, 0) :=
  dashboard_last_settlement_wins dashboardLoaded
    (.setFilter "soil") (.setFilter "weather") historySoilOnly statsOne historyWeatherOnly
    statsOne true true rfl

/-- C19. On every page the continuation that handles a failed gateway call
changes `error` and `loading` and nothing else: the prediction of the disease
and soil pages, the weather of the weather page, and the history and
statistics of the dashboard stay as they were. A dashboard cycle fails as soon
as one of its two calls fails. -/
theorem failure_keeps_results (err errH errS : AxiosError) (o : Outcome) (historyFirst : Bool)
    (d : DiseaseDetection.State) (s : SoilRecommendation.State) (w : WeatherAdvisory.State)
    (b : Dashboard.State) :
    DiseaseDetection.handleSubmitSettled (.error err) d =
      { d with error := errorMessage err "Failed to analyze image. Please try again.",
               loading := false } ∧
    SoilRecommendation.handleSubmitSettled (.error err) s =
      { s with error := errorMessage err "Failed to get recommendation. Please try again.",
               loading := false } ∧
    WeatherAdvisory.handleSubmitSettled (.error err) w =
      { w with error := errorMessage err "Failed to fetch weather data. Please try again.",
               loading := false } ∧
    WeatherAdvisory.selectCitySettled (.error err) w =
      { w with error := errorMessage err "Failed to fetch weather data. Please try again.",
               loading := false } ∧
    Dashboard.fetchDataSettled (Dashboard.promiseAll (.error errH) o historyFirst) b =
      { b with error := .string "Failed to load dashboard data. Please try again.",
               loading := false } ∧
    Dashboard.fetchDataSettled (Dashboard.promiseAll o (.error errS) historyFirst) b =
      { b with error := .string "Failed to load dashboard data. Please try again.",
               loading := false } ∧
    (DiseaseDetection.handleSubmitSettled (.error err) d).prediction = d.prediction ∧
    (SoilRecommendation.handleSubmitSettled (.error err) s).prediction = s.prediction ∧
    (WeatherAdvisory.handleSubmitSettled (.error err) w).weather = w.weather ∧
    (WeatherAdvisory.selectCitySettled (.error err) w).weather = w.weather ∧
    (Dashboard.fetchDataSettled (Dashboard.promiseAll (.error errH) o historyFirst) b).history =
      b.history ∧
    (Dashboard.fetchDataSettled
      (Dashboard.promiseAll (.error errH) o historyFirst) b).statistics = b.statistics ∧
    (Dashboard.fetchDataSettled (Dashboard.promiseAll o (.error errS) historyFirst) b).history =
      b.history ∧
    (Dashboard.fetchDataSettled
      (Dashboard.promiseAll o (.error errS) historyFirst) b).statistics = b.statistics := by
  refine ⟨rfl, rfl, rfl, rfl, ?_, ?_, rfl, rfl, rfl, rfl, ?_, ?_, ?_, ?_⟩ <;>
    cases o <;> rfl

theorem soil_step_flags (sys t : Sys SoilRecommendation.State Unit)
    (e : SoilRecommendation.Event) (hstep : SoilRecommendation.step sys e = some t) :
    t.view.loading = true → t.view.error = .null := by
  cases e with
  | change name value =>
    simp only [SoilRecommendation.step, Option.some.injEq] at hstep
    subst hstep
    intro _
    rfl
  | submit =>
    simp only [SoilRecommendation.step, Option.some.injEq] at hstep
    subst hstep
    intro _
    rfl
  | reset =>
    simp only [SoilRecommendation.step, Option.some.injEq] at hstep
    subst hstep
    intro _
    rfl
  | settle k o =>
    simp only [SoilRecommendation.step] at hstep
    split at hstep
    · cases hstep
    · simp only [Option.some.injEq] at hstep
      subst hstep
      intro hl
      cases o <;> simp [SoilRecommendation.handleSubmitSettled] at hl

theorem soil_run_flags (es : List SoilRecommendation.Event)
    (sys t : Sys SoilRecommendation.State Unit)
    (hinv : sys.view.loading = true → sys.view.error = .null)
    (hrun : SoilRecommendation.run sys es = some t) :
    t.view.loading = true → t.view.error = .null := by
  induction es generalizing sys with
  | nil =>
    simp only [SoilRecommendation.run, Option.some.injEq] at hrun
    subst hrun
    exact hinv
  | cons e es ih =>
    simp only [SoilRecommendation.run] at hrun
    cases hstep : SoilRecommendation.step sys e with
    | none => simp [hstep] at hrun
    | some u =>
      rw [hstep] at hrun
      exact ih u (soil_step_flags sys u e hstep) hrun

theorem dashboard_step_flags (sys t : Sys Dashboard.State Unit) (e : Dashboard.Event)
    (hinv : sys.view.loading = true → sys.view.error = .null)
    (hstep : Dashboard.step sys e = some t) :
    t.view.loading = true → t.view.error = .null := by
  cases e with
  | mount =>
    simp only [Dashboard.step, Option.some.injEq] at hstep
    subst hstep
    intro _
    rfl
  | refresh =>
    simp only [Dashboard.step, Option.some.injEq] at hstep
    subst hstep
    intro _
    rfl
  | setFilter type =>
    simp only [Dashboard.step] at hstep
    split at hstep
    · simp only [Option.some.injEq] at hstep
      subst hstep
      exact hinv
    · simp only [Option.some.injEq] at hstep
      subst hstep
      intro _
      rfl
  | settle k h st historyFirst =>
    simp only [Dashboard.step] at hstep
    split at hstep
    · cases hstep
    · simp only [Option.some.injEq] at hstep
      subst hstep
      intro hl
      cases h <;> cases st <;>
        simp [Dashboard.fetchDataSettled, Dashboard.promiseAll] at hl

theorem dashboard_run_flags (es : List Dashboard.Event) (sys t : Sys Dashboard.State Unit)
    (hinv : sys.view.loading = true → sys.view.error = .null)
    (hrun : Dashboard.run sys es = some t) :
    t.view.loading = true → t.view.error = .null := by
  induction es generalizing sys with
  | nil =>
    simp only [Dashboard.run, Option.some.injEq] at hrun
    subst hrun
    exact hinv
  | cons e es ih =>
    simp only [Dashboard.run] at hrun
    cases hstep : Dashboard.step sys e with
    | none => simp [hstep] at hrun
    | some u =>
      rw [hstep] at hrun
      exact ih u (dashboard_step_flags sys u e hinv hstep) hrun

theorem weather_stepPage_flags (sys t : Sys WeatherAdvisory.State WeatherAdvisory.Task)
    (e : WeatherAdvisory.Event)
    (hinv : sys.view.loading = true → sys.view.error = .null)
    (hstep : WeatherAdvisory.stepPage sys e = some t) :
    t.view.loading = true → t.view.error = .null := by
  cases e with
  | changeLocation value =>
    simp only [WeatherAdvisory.stepPage, WeatherAdvisory.step, Option.some.injEq] at hstep
    subst hstep
    exact hinv
  | submit =>
    simp only [WeatherAdvisory.stepPage] at hstep
    cases hl : sys.view.loading with
    | true => simp [hl] at hstep
    | false =>
      simp only [hl, Bool.false_eq_true, if_false, WeatherAdvisory.step,
        Option.some.injEq] at hstep
      subst hstep
      cases hblank : (!(JSValue.string (jsTrim sys.view.location)).truthy) with
      | true =>
        intro h
        simp [WeatherAdvisory.handleSubmit, hblank, hl] at h
      | false =>
        intro _
        simp [WeatherAdvisory.handleSubmit, hblank]
  | selectCity city =>
    simp only [WeatherAdvisory.stepPage, WeatherAdvisory.step, Option.some.injEq] at hstep
    subst hstep
    intro _
    rfl
  | settle k o =>
    simp only [WeatherAdvisory.stepPage, WeatherAdvisory.step] at hstep
    split at hstep
    · cases hstep
    · rename_i task _
      simp only [Option.some.injEq] at hstep
      subst hstep
      intro hl
      cases task <;> cases o <;>
        simp [WeatherAdvisory.Task.settled, WeatherAdvisory.handleSubmitSettled,
          WeatherAdvisory.selectCitySettled] at hl

theorem weather_runPage_flags (es : List WeatherAdvisory.Event)
    (sys t : Sys WeatherAdvisory.State WeatherAdvisory.Task)
    (hinv : sys.view.loading = true → sys.view.error = .null)
    (hrun : WeatherAdvisory.runPage sys es = some t) :
    t.view.loading = true → t.view.error = .null := by
  induction es generalizing sys with
  | nil =>
    simp only [WeatherAdvisory.runPage, Option.some.injEq] at hrun
    subst hrun
    exact hinv
  | cons e es ih =>
    simp only [WeatherAdvisory.runPage] at hrun
    cases hstep : WeatherAdvisory.stepPage sys e with
    | none => simp [hstep] at hrun
    | some u =>
      rw [hstep] at hrun
      exact ih u (weather_stepPage_flags sys u e hinv hstep) hrun

/-- C20, counterexample. On the disease page an image is selected and
submitted, and while the request is in flight a text file is selected:
`loading` is true and the error is `Please select a valid image file`. -/
theorem loading_and_error_together :
    (DiseaseDetection.run DiseaseDetection.start
        [.selectImage [leafPng] "blob:1", .submit, .selectImage [notesTxt] "blob:2"]).map
      (fun t => (t.view.loading, t.view.error, t.pending.length)) =
      some (true, .string "Please select a valid image file", 1) ∧
    JSValue.string "Please select a valid image file" ≠ JSValue.null := by
  refine ⟨rfl, by simp⟩

/-- C20, as amended. In every reachable state of the soil page and of the
dashboard, under every interleaving of handler invocations and settlements,
and in every reachable state of the weather page, whose submit button is
disabled while `loading`, the error is `null` whenever `loading` is true. -/
theorem flags_exclusive_off_disease (es : List SoilRecommendation.Event)
    (ws : List WeatherAdvisory.Event) (fs : List Dashboard.Event)
    (s : Sys SoilRecommendation.State Unit)
    (w : Sys WeatherAdvisory.State WeatherAdvisory.Task) (b : Sys Dashboard.State Unit)
    (hs : SoilRecommendation.run SoilRecommendation.start es = some s)
    (hw : WeatherAdvisory.runPage WeatherAdvisory.start ws = some w)
    (hb : Dashboard.run Dashboard.start fs = some b) :
    (s.view.loading = true → s.view.error = .null) ∧
    (w.view.loading = true → w.view.error = .null) ∧
    (b.view.loading = true → b.view.error = .null) :=
  ⟨soil_run_flags es SoilRecommendation.start s (fun _ => rfl) hs,
   weather_runPage_flags ws WeatherAdvisory.start w (fun _ => rfl) hw,
   dashboard_run_flags fs Dashboard.start b (fun _ => rfl) hb⟩

/-- C20, witness: a soil request that failed followed by a new submit, a
weather request that failed followed by the selection of another city, and a
dashboard cycle that failed followed by a refresh. -/
theorem flags_exclusive_off_disease_witness :
    SoilRecommendation.run SoilRecommendation.start
      (fillSoilForm ++ [SoilRecommendation.Event.submit,
        SoilRecommendation.Event.settle 0 (.error networkError),
        SoilRecommendation.Event.submit]) = some soilResubmitted ∧
    WeatherAdvisory.runPage WeatherAdvisory.start
      [.selectCity "Pune", .settle 0 (.error networkError), .selectCity "Mumbai"] =
      some weatherReselected ∧
    Dashboard.run Dashboard.start
      [.mount, .settle 0 (.error networkError) (.ok statsOne) true, .refresh] =
      some dashboardRefreshed ∧
    soilResubmitted.view.loading = true ∧ soilResubmitted.view.error = .null ∧
    weatherReselected.view.loading = true ∧ weatherReselected.view.error = .null ∧
    dashboardRefreshed.view.loading = true ∧ dashboardRefreshed.view.error = .null :=
  ⟨rfl, rfl, rfl, rfl,
   (flags_exclusive_off_disease
      (fillSoilForm ++ [SoilRecommendation.Event.submit,
        SoilRecommendation.Event.settle 0 (.error networkError),
        SoilRecommendation.Event.submit])
      [.selectCity "Pune", .settle 0 (.error networkError), .selectCity "Mumbai"]
      [.mount, .settle 0 (.error networkError) (.ok statsOne) true, .refresh]
      soilResubmitted weatherReselected dashboardRefreshed rfl rfl rfl).1 rfl,
   rfl,
   (flags_exclusive_off_disease
      (fillSoilForm ++ [SoilRecommendation.Event.submit,
        SoilRecommendation.Event.settle 0 (.error networkError),
        SoilRecommendation.Event.submit])
      [.selectCity "Pune", .settle 0 (.error networkError), .selectCity "Mumbai"]
      [.mount, .settle 0 (.error networkError) (.ok statsOne) true, .refresh]
      soilResubmitted weatherReselected dashboardRefreshed rfl rfl rfl).2.1 rfl,
   rfl,
   (flags_exclusive_off_disease
      (fillSoilForm ++ [SoilRecommendation.Event.submit,
        SoilRecommendation.Event.settle 0 (.error networkError),
        SoilRecommendation.Event.submit])
      [.selectCity "Pune", .settle 0 (.error networkError), .selectCity "Mumbai"]
      [.mount, .settle 0 (.error networkError) (.ok statsOne) true, .refresh]
      soilResubmitted weatherReselected dashboardRefreshed rfl rfl rfl).2.2 rfl⟩

/-! ## Image acceptance, payloads, reset and query parameters (C21, C22, C24, C26) -/

/-- C21. Every file whose declared type starts with `image/` is accepted by
`handleImageSelect` whatever its size: the selected image becomes that file,
the preview becomes the object URL created for it, and prediction and error
are cleared to `null`; no gateway call is issued. -/
theorem image_accepted_whatever_size (sys : Sys DiseaseDetection.State Unit) (file : File)
    (others : List File) (objectUrl : String)
    (htype : ∃ rest : String, file.type = "image/" ++ rest) :
    DiseaseDetection.handleImageSelect (file :: others) objectUrl sys.view =
      { sys.view with selectedImage := some file, imagePreview := some objectUrl,
                      prediction := .null, error := .null } ∧
    DiseaseDetection.step sys (.selectImage (file :: others) objectUrl) =
      some { sys with
        view := { sys.view with selectedImage := some file, imagePreview := some objectUrl,
                                prediction := .null, error := .null } } := by
  have h : DiseaseDetection.isImageType file = true := (isImageType_iff file).mpr htype
  simp [DiseaseDetection.step, DiseaseDetection.handleImageSelect, h]

/-- C21, witness: an image of sixty megabytes selected while an error and an
earlier prediction are on display. -/
theorem image_accepted_whatever_size_witness :
    DiseaseDetection.handleImageSelect [hugeJpeg] "blob:9"
        { DiseaseDetection.init with prediction := diseaseBlight,
                                     error := .string "Please select an image first" } =
      { selectedImage := some hugeJpeg, imagePreview := some "blob:9", prediction := .null,
        loading := false, error := .null } :=
  (image_accepted_whatever_size
    { view := { DiseaseDetection.init with prediction := diseaseBlight,
                                           error := .string "Please select an image first" },
      pending := [], calls := [] }
    hugeJpeg [] "blob:9" ⟨"jpeg", by decide⟩).1

/-- C22. The function `predictSoilRecommendation(d)` issues `POST /predict/soil`
with body exactly `d`, for every `d`; and the object built by `handleSubmit` of
the soil page has exactly the five properties nitrogen, phosphorus, potassium,
ph, rainfall, each the `parseFloat` of the form text of that name. -/
theorem soil_payload_passed_through (d : JSValue) (s : SoilRecommendation.State) :
    (GatewayCall.predictSoilRecommendation d).request =
      { method := "POST", url := "/predict/soil", params := [], body := .json d,
        contentType := "application/json" } ∧
    (SoilRecommendation.handleSubmit s).2 =
      [.predictSoilRecommendation
        (.object [("nitrogen", .number (parseFloat s.formData.nitrogen)),
                  ("phosphorus", .number (parseFloat s.formData.phosphorus)),
                  ("potassium", .number (parseFloat s.formData.potassium)),
                  ("ph", .number (parseFloat s.formData.ph)),
                  ("rainfall", .number (parseFloat s.formData.rainfall))])] :=
  ⟨rfl, rfl⟩

/-- C24. On the disease page and on the soil page `handleReset` is idempotent
and leaves `loading` as it was. -/
theorem handleReset_idempotent (d : DiseaseDetection.State) (s : SoilRecommendation.State) :
    DiseaseDetection.handleReset (DiseaseDetection.handleReset d) =
      DiseaseDetection.handleReset d ∧
    SoilRecommendation.handleReset (SoilRecommendation.handleReset s) =
      SoilRecommendation.handleReset s ∧
    (DiseaseDetection.handleReset d).loading = d.loading ∧
    (SoilRecommendation.handleReset s).loading = s.loading :=
  ⟨rfl, rfl, rfl, rfl⟩

theorem truthy_withDefault_null (v : JSValue) :
    (withDefault v .null).truthy = v.truthy := by
  cases v <;> rfl

theorem truthy_withDefault_eq (v : JSValue) (h : v.truthy = true) :
    withDefault v .null = v := by
  cases v <;> first | rfl | simp [JSValue.truthy] at h

/-- C26. The params built by `getPredictionHistory(predictionType, limit)`
always hold `limit` (50 when the argument is `undefined`), and hold
`prediction_type` exactly when `predictionType` is truthy, in which case it is
`predictionType`; `null`, `undefined` and the empty string all leave it out,
and a call without arguments builds exactly `limit: 50`. -/
theorem history_params (predictionType limit : JSValue) :
    (historyParams predictionType limit).lookup "limit" =
      some (withDefault limit (.number (.fin 50))) ∧
    (((historyParams predictionType limit).lookup "prediction_type").isSome = true ↔
      predictionType.truthy = true) ∧
    (predictionType.truthy = true →
      (historyParams predictionType limit).lookup "prediction_type" = some predictionType ∧
      historyParams predictionType limit =
        [("limit", withDefault limit (.number (.fin 50))), ("prediction_type", predictionType)]) ∧
    (predictionType.truthy = false →
      historyParams predictionType limit = [("limit", withDefault limit (.number (.fin 50)))]) ∧
    historyParams .null limit = [("limit", withDefault limit (.number (.fin 50)))] ∧
    historyParams .undefined limit = [("limit", withDefault limit (.number (.fin 50)))] ∧
    historyParams (.string "") limit = [("limit", withDefault limit (.number (.fin 50)))] ∧
    (getPredictionHistory .undefined .undefined).params = [("limit", .number (.fin 50))] := by
  have hfalse : predictionType.truthy = false →
      historyParams predictionType limit = [("limit", withDefault limit (.number (.fin 50)))] := by
    intro h
    simp [historyParams, truthy_withDefault_null, h]
  have htrue : predictionType.truthy = true →
      historyParams predictionType limit =
        [("limit", withDefault limit (.number (.fin 50))), ("prediction_type", predictionType)] := by
    intro h
    simp [historyParams, truthy_withDefault_null, h, truthy_withDefault_eq, setProp]
  refine ⟨?_, ?_, ?_, hfalse, ?_, ?_, ?_, ?_⟩
  · cases h : predictionType.truthy
    · rw [hfalse h]
      simp [List.lookup]
    · rw [htrue h]
      simp [List.lookup]
  · cases h : predictionType.truthy
    · rw [hfalse h]
      simp [List.lookup]
    · rw [htrue h]
      simp [List.lookup]
  · intro h
    refine ⟨?_, htrue h⟩
    rw [htrue h]
    simp [List.lookup]
  · simp [historyParams, withDefault, JSValue.truthy]
  · simp [historyParams, withDefault, JSValue.truthy]
  · simp [historyParams, withDefault, JSValue.truthy]
  · simp [getPredictionHistory, historyParams, withDefault, JSValue.truthy]

/-- C26, witness: the type `soil` with limit 50. -/
theorem history_params_witness :
    (historyParams (.string "soil") (.number (.fin 50))).lookup "prediction_type" =
      some (.string "soil") ∧
    historyParams (.string "soil") (.number (.fin 50)) =
      [("limit", withDefault (.number (.fin 50)) (.number (.fin 50))),
       ("prediction_type", .string "soil")] :=
  (history_params (.string "soil") (.number (.fin 50))).2.2.1 rfl

/-! ## Invariants of the disease page and of serial event sequences (C23, C25) -/

theorem disease_step_images (sys t : Sys DiseaseDetection.State Unit)
    (e : DiseaseDetection.Event) (hstep : DiseaseDetection.step sys e = some t)
    (hsel : ∀ f, sys.view.selectedImage = some f → DiseaseDetection.isImageType f = true)
    (hcalls : ∀ c ∈ sys.calls, ∃ f, c = GatewayCall.predictDisease f ∧
      DiseaseDetection.isImageType f = true) :
    (∀ f, t.view.selectedImage = some f → DiseaseDetection.isImageType f = true) ∧
    (∀ c ∈ t.calls, ∃ f, c = GatewayCall.predictDisease f ∧
      DiseaseDetection.isImageType f = true) := by
  cases e with
  | selectImage files objectUrl =>
    simp only [DiseaseDetection.step, Option.some.injEq] at hstep
    subst hstep
    refine ⟨?_, hcalls⟩
    intro f hf
    simp only [DiseaseDetection.handleImageSelect] at hf
    cases hfiles : files.head? with
    | none =>
      simp only [hfiles] at hf
      exact hsel f hf
    | some file =>
      simp only [hfiles] at hf
      cases himg : DiseaseDetection.isImageType file with
      | false =>
        simp only [himg, Bool.not_false, if_true] at hf
        exact hsel f hf
      | true =>
        simp only [himg, Bool.not_true, Bool.false_eq_true, if_false, Option.some.injEq] at hf
        rw [← hf]
        exact himg
  | submit =>
    simp only [DiseaseDetection.step, Option.some.injEq] at hstep
    subst hstep
    cases himg : sys.view.selectedImage with
    | none =>
      refine ⟨?_, ?_⟩
      · intro f hf
        simp [DiseaseDetection.handleSubmit, himg] at hf
      · intro c hc
        simp only [DiseaseDetection.handleSubmit, himg, List.append_nil] at hc
        exact hcalls c hc
    | some image =>
      refine ⟨?_, ?_⟩
      · intro f hf
        simp only [DiseaseDetection.handleSubmit, himg] at hf
        exact hsel f (himg.trans hf)
      · intro c hc
        simp only [DiseaseDetection.handleSubmit, himg, List.mem_append,
          List.mem_singleton] at hc
        rcases hc with hc | hc
        · exact hcalls c hc
        · exact ⟨image, hc, hsel image himg⟩
  | reset =>
    simp only [DiseaseDetection.step, Option.some.injEq] at hstep
    subst hstep
    refine ⟨?_, hcalls⟩
    intro f hf
    simp [DiseaseDetection.handleReset] at hf
  | settle k o =>
    simp only [DiseaseDetection.step] at hstep
    split at hstep
    · cases hstep
    · simp only [Option.some.injEq] at hstep
      subst hstep
      refine ⟨?_, hcalls⟩
      intro f hf
      cases o <;> exact hsel f (by simpa [DiseaseDetection.handleSubmitSettled] using hf)

theorem disease_run_images (es : List DiseaseDetection.Event)
    (sys t : Sys DiseaseDetection.State Unit) (hrun : DiseaseDetection.run sys es = some t)
    (hsel : ∀ f, sys.view.selectedImage = some f → DiseaseDetection.isImageType f = true)
    (hcalls : ∀ c ∈ sys.calls, ∃ f, c = GatewayCall.predictDisease f ∧
      DiseaseDetection.isImageType f = true) :
    (∀ f, t.view.selectedImage = some f → DiseaseDetection.isImageType f = true) ∧
    (∀ c ∈ t.calls, ∃ f, c = GatewayCall.predictDisease f ∧
      DiseaseDetection.isImageType f = true) := by
  induction es generalizing sys with
  | nil =>
    simp only [DiseaseDetection.run, Option.some.injEq] at hrun
    subst hrun
    exact ⟨hsel, hcalls⟩
  | cons e es ih =>
    simp only [DiseaseDetection.run] at hrun
    cases hstep : DiseaseDetection.step sys e with
    | none => simp [hstep] at hrun
    | some u =>
      rw [hstep] at hrun
      have h := disease_step_images sys u e hstep hsel hcalls
      exact ih u hrun h.1 h.2

/-- C23. In every reachable state of the disease page the selected image is
`null` or a file whose declared type starts with `image/`, and every gateway
call issued so far is a `predictDisease` call carrying such a file. A rejected
selection leaves the selected image, the preview and the prediction as they
were, and `handleSubmit` without a selected image sets the error `Please select
an image first` and issues no call. -/
theorem only_images_reach_gateway (es : List DiseaseDetection.Event)
    (t : Sys DiseaseDetection.State Unit)
    (hrun : DiseaseDetection.run DiseaseDetection.start es = some t) :
    (∀ f, t.view.selectedImage = some f → ∃ rest : String, f.type = "image/" ++ rest) ∧
    (∀ c ∈ t.calls, ∃ f, c = GatewayCall.predictDisease f ∧
      ∃ rest : String, f.type = "image/" ++ rest) ∧
    (∀ (file : File) (others : List File) (objectUrl : String),
      (¬ ∃ rest : String, file.type = "image/" ++ rest) →
      (DiseaseDetection.handleImageSelect (file :: others) objectUrl t.view).selectedImage =
        t.view.selectedImage ∧
      (DiseaseDetection.handleImageSelect (file :: others) objectUrl t.view).imagePreview =
        t.view.imagePreview ∧
      (DiseaseDetection.handleImageSelect (file :: others) objectUrl t.view).prediction =
        t.view.prediction) ∧
    (t.view.selectedImage = none →
      DiseaseDetection.handleSubmit t.view =
        ({ t.view with error := .string "Please select an image first" }, [])) := by
  have h := disease_run_images es DiseaseDetection.start t hrun
    (by intro f hf; simp [DiseaseDetection.start, DiseaseDetection.init] at hf)
    (by intro c hc; simp [DiseaseDetection.start] at hc)
  refine ⟨?_, ?_, ?_, ?_⟩
  · intro f hf
    exact (isImageType_iff f).mp (h.1 f hf)
  · intro c hc
    obtain ⟨f, hcf, himg⟩ := h.2 c hc
    exact ⟨f, hcf, (isImageType_iff f).mp himg⟩
  · intro file others objectUrl hno
    have himg : DiseaseDetection.isImageType file = false := by
      cases hi : DiseaseDetection.isImageType file with
      | false => rfl
      | true => exact absurd ((isImageType_iff file).mp hi) hno
    simp [DiseaseDetection.handleImageSelect, himg]
  · intro hnone
    simp [DiseaseDetection.handleSubmit, hnone]

/-- C23, witness: a text file is selected and the form is submitted, from the
first render. -/
theorem only_images_reach_gateway_witness :
    DiseaseDetection.handleSubmit
        { DiseaseDetection.init with error := .string "Please select a valid image file" } =
      ({ DiseaseDetection.init with error := .string "Please select an image first" }, []) :=
  (only_images_reach_gateway [.selectImage [notesTxt] "blob:1"]
    { view := { DiseaseDetection.init with error := .string "Please select a valid image file" },
      pending := [], calls := [] }
    rfl).2.2.2 rfl

theorem handleImageSelect_loading (files : List File) (objectUrl : String)
    (v : DiseaseDetection.State) :
    (DiseaseDetection.handleImageSelect files objectUrl v).loading = v.loading := by
  unfold DiseaseDetection.handleImageSelect
  cases files.head? with
  | none => rfl
  | some file => cases h : DiseaseDetection.isImageType file <;> simp [h]

theorem disease_step_serial (sys t : Sys DiseaseDetection.State Unit)
    (e : DiseaseDetection.Event) (hstep : DiseaseDetection.step sys e = some t)
    (hb : issuesWhileBusy sys t = false) (hlen : sys.pending.length ≤ 1)
    (hload : sys.view.loading = true ↔ sys.pending.length = 1) :
    t.pending.length ≤ 1 ∧ (t.view.loading = true ↔ t.pending.length = 1) := by
  cases e with
  | selectImage files objectUrl =>
    simp only [DiseaseDetection.step, Option.some.injEq] at hstep
    subst hstep
    exact ⟨hlen, by simpa [handleImageSelect_loading] using hload⟩
  | submit =>
    simp only [DiseaseDetection.step, Option.some.injEq] at hstep
    subst hstep
    cases himg : sys.view.selectedImage with
    | none =>
      simp only [DiseaseDetection.handleSubmit, himg, List.map_nil, List.append_nil]
      exact ⟨hlen, hload⟩
    | some image =>
      simp only [issuesWhileBusy, DiseaseDetection.handleSubmit, himg, List.map_cons,
        List.map_nil, List.length_append, List.length_singleton, decide_eq_false_iff_not] at hb
      simp only [DiseaseDetection.handleSubmit, himg, List.map_cons, List.map_nil,
        List.length_append, List.length_singleton]
      constructor
      · omega
      · constructor
        · intro _
          omega
        · intro _
          trivial
  | reset =>
    simp only [DiseaseDetection.step, Option.some.injEq] at hstep
    subst hstep
    exact ⟨hlen, hload⟩
  | settle k o =>
    simp only [DiseaseDetection.step] at hstep
    split at hstep
    · cases hstep
    · rename_i x hk
      simp only [Option.some.injEq] at hstep
      subst hstep
      have hk1 : k < sys.pending.length := by
        rcases List.get?_eq_some.mp hk with ⟨h, _⟩
        exact h
      simp only [List.length_eraseIdx, hk1, if_true]
      constructor
      · omega
      · cases o <;> simp [DiseaseDetection.handleSubmitSettled] <;> omega

theorem disease_runSerial_inv (es : List DiseaseDetection.Event)
    (sys t : Sys DiseaseDetection.State Unit)
    (hrun : DiseaseDetection.runSerial sys es = some t) (hlen : sys.pending.length ≤ 1)
    (hload : sys.view.loading = true ↔ sys.pending.length = 1) :
    t.pending.length ≤ 1 ∧ (t.view.loading = true ↔ t.pending.length = 1) := by
  induction es generalizing sys with
  | nil =>
    simp only [DiseaseDetection.runSerial, Option.some.injEq] at hrun
    subst hrun
    exact ⟨hlen, hload⟩
  | cons e es ih =>
    simp only [DiseaseDetection.runSerial] at hrun
    cases hstep : DiseaseDetection.step sys e with
    | none => simp [hstep] at hrun
    | some u =>
      simp only [hstep] at hrun
      cases hb : issuesWhileBusy sys u with
      | true => simp [hb] at hrun
      | false =>
        simp only [hb, Bool.false_eq_true, if_false] at hrun
        have h := disease_step_serial sys u e hstep hb hlen hload
        exact ih u hrun h.1 h.2

theorem soil_step_serial (sys t : Sys SoilRecommendation.State Unit)
    (e : SoilRecommendation.Event) (hstep : SoilRecommendation.step sys e = some t)
    (hb : issuesWhileBusy sys t = false) (hlen : sys.pending.length ≤ 1)
    (hload : sys.view.loading = true ↔ sys.pending.length = 1) :
    t.pending.length ≤ 1 ∧ (t.view.loading = true ↔ t.pending.length = 1) := by
  cases e with
  | change name value =>
    simp only [SoilRecommendation.step, Option.some.injEq] at hstep
    subst hstep
    exact ⟨hlen, hload⟩
  | submit =>
    simp only [SoilRecommendation.step, Option.some.injEq] at hstep
    subst hstep
    simp only [issuesWhileBusy, SoilRecommendation.handleSubmit, List.map_cons,
      List.map_nil, List.length_append, List.length_singleton, decide_eq_false_iff_not] at hb
    simp only [SoilRecommendation.handleSubmit, List.map_cons, List.map_nil,
      List.length_append, List.length_singleton]
    constructor
    · omega
    · constructor
      · intro _
        omega
      · intro _
        trivial
  | reset =>
    simp only [SoilRecommendation.step, Option.some.injEq] at hstep
    subst hstep
    exact ⟨hlen, hload⟩
  | settle k o =>
    simp only [SoilRecommendation.step] at hstep
    split at hstep
    · cases hstep
    · rename_i x hk
      simp only [Option.some.injEq] at hstep
      subst hstep
      have hk1 : k < sys.pending.length := by
        rcases List.get?_eq_some.mp hk with ⟨h, _⟩
        exact h
      simp only [List.length_eraseIdx, hk1, if_true]
      constructor
      · omega
      · cases o <;> simp [SoilRecommendation.handleSubmitSettled] <;> omega

theorem soil_runSerial_inv (es : List SoilRecommendation.Event)
    (sys t : Sys SoilRecommendation.State Unit)
    (hrun : SoilRecommendation.runSerial sys es = some t) (hlen : sys.pending.length ≤ 1)
    (hload : sys.view.loading = true ↔ sys.pending.length = 1) :
    t.pending.length ≤ 1 ∧ (t.view.loading = true ↔ t.pending.length = 1) := by
  induction es generalizing sys with
  | nil =>
    simp only [SoilRecommendation.runSerial, Option.some.injEq] at hrun
    subst hrun
    exact ⟨hlen, hload⟩
  | cons e es ih =>
    simp only [SoilRecommendation.runSerial] at hrun
    cases hstep : SoilRecommendation.step sys e with
    | none => simp [hstep] at hrun
    | some u =>
      simp only [hstep] at hrun
      cases hb : issuesWhileBusy sys u with
      | true => simp [hb] at hrun
      | false =>
        simp only [hb, Bool.false_eq_true, if_false] at hrun
        have h := soil_step_serial sys u e hstep hb hlen hload
        exact ih u hrun h.1 h.2

theorem weather_step_serial (sys t : Sys WeatherAdvisory.State WeatherAdvisory.Task)
    (e : WeatherAdvisory.Event) (hstep : WeatherAdvisory.step sys e = some t)
    (hb : issuesWhileBusy sys t = false) (hlen : sys.pending.length ≤ 1)
    (hload : sys.view.loading = true ↔ sys.pending.length = 1) :
    t.pending.length ≤ 1 ∧ (t.view.loading = true ↔ t.pending.length = 1) := by
  cases e with
  | changeLocation value =>
    simp only [WeatherAdvisory.step, Option.some.injEq] at hstep
    subst hstep
    exact ⟨hlen, hload⟩
  | submit =>
    simp only [WeatherAdvisory.step, Option.some.injEq] at hstep
    subst hstep
    cases hblank : (!(JSValue.string (jsTrim sys.view.location)).truthy) with
    | true =>
      simp only [WeatherAdvisory.handleSubmit, hblank, if_true, List.map_nil, List.append_nil]
      exact ⟨hlen, hload⟩
    | false =>
      simp only [issuesWhileBusy, WeatherAdvisory.handleSubmit, hblank, Bool.false_eq_true,
        if_false, List.map_cons, List.map_nil, List.length_append, List.length_singleton,
        decide_eq_false_iff_not] at hb
      simp only [WeatherAdvisory.handleSubmit, hblank, Bool.false_eq_true, if_false,
        List.map_cons, List.map_nil, List.length_append, List.length_singleton]
      constructor
      · omega
      · constructor
        · intro _
          omega
        · intro _
          trivial
  | selectCity city =>
    simp only [WeatherAdvisory.step, Option.some.injEq] at hstep
    subst hstep
    simp only [issuesWhileBusy, WeatherAdvisory.selectCity, List.map_cons,
      List.map_nil, List.length_append, List.length_singleton, decide_eq_false_iff_not] at hb
    simp only [WeatherAdvisory.selectCity, List.map_cons, List.map_nil,
      List.length_append, List.length_singleton]
    constructor
    · omega
    · constructor
      · intro _
        omega
      · intro _
        trivial
  | settle k o =>
    simp only [WeatherAdvisory.step] at hstep
    split at hstep
    · cases hstep
    · rename_i task hk
      simp only [Option.some.injEq] at hstep
      subst hstep
      have hk1 : k < sys.pending.length := by
        rcases List.get?_eq_some.mp hk with ⟨h, _⟩
        exact h
      simp only [List.length_eraseIdx, hk1, if_true]
      constructor
      · omega
      · cases task <;> cases o <;>
          simp [WeatherAdvisory.Task.settled, WeatherAdvisory.handleSubmitSettled,
            WeatherAdvisory.selectCitySettled] <;> omega

theorem weather_runSerial_inv (es : List WeatherAdvisory.Event)
    (sys t : Sys WeatherAdvisory.State WeatherAdvisory.Task)
    (hrun : WeatherAdvisory.runSerial sys es = some t) (hlen : sys.pending.length ≤ 1)
    (hload : sys.view.loading = true ↔ sys.pending.length = 1) :
    t.pending.length ≤ 1 ∧ (t.view.loading = true ↔ t.pending.length = 1) := by
  induction es generalizing sys with
  | nil =>
    simp only [WeatherAdvisory.runSerial, Option.some.injEq] at hrun
    subst hrun
    exact ⟨hlen, hload⟩
  | cons e es ih =>
    simp only [WeatherAdvisory.runSerial] at hrun
    cases hstep : WeatherAdvisory.step sys e with
    | none => simp [hstep] at hrun
    | some u =>
      simp only [hstep] at hrun
      cases hb : issuesWhileBusy sys u with
      | true => simp [hb] at hrun
      | false =>
        simp only [hb, Bool.false_eq_true, if_false] at hrun
        have h := weather_step_serial sys u e hstep hb hlen hload
        exact ih u hrun h.1 h.2

/-- C25. On the disease, soil and weather pages, along every sequence of events
from the first render in which a request is issued only when none is
outstanding, `loading` is true exactly while a request is outstanding. Every
settlement, successful or failed, leaves `loading` false, and the validation
short-circuits (no selected image, a file that is not an image, a blank
location) leave `loading` as it was. -/
theorem loading_tracks_outstanding_request (ds : List DiseaseDetection.Event)
    (ss : List SoilRecommendation.Event) (ws : List WeatherAdvisory.Event)
    (d : Sys DiseaseDetection.State Unit) (s : Sys SoilRecommendation.State Unit)
    (w : Sys WeatherAdvisory.State WeatherAdvisory.Task)
    (hd : DiseaseDetection.runSerial DiseaseDetection.start ds = some d)
    (hs : SoilRecommendation.runSerial SoilRecommendation.start ss = some s)
    (hw : WeatherAdvisory.runSerial WeatherAdvisory.start ws = some w) :
    (d.view.loading = true ↔ 0 < d.pending.length) ∧
    (s.view.loading = true ↔ 0 < s.pending.length) ∧
    (w.view.loading = true ↔ 0 < w.pending.length) ∧
    (∀ o, (DiseaseDetection.handleSubmitSettled o d.view).loading = false ∧
      (SoilRecommendation.handleSubmitSettled o s.view).loading = false ∧
      (WeatherAdvisory.handleSubmitSettled o w.view).loading = false ∧
      (WeatherAdvisory.selectCitySettled o w.view).loading = false) ∧
    (d.view.selectedImage = none →
      (DiseaseDetection.handleSubmit d.view).1.loading = d.view.loading) ∧
    (∀ files objectUrl,
      (DiseaseDetection.handleImageSelect files objectUrl d.view).loading = d.view.loading) ∧
    ((∀ c ∈ w.view.location.data, isJSWhiteSpace c = true) →
      (WeatherAdvisory.handleSubmit w.view).1.loading = w.view.loading) := by
  have h0 : (false = true ↔ (0 : Nat) = 1) := by simp
  have id := disease_runSerial_inv ds DiseaseDetection.start d hd (by decide) h0
  have is := soil_runSerial_inv ss SoilRecommendation.start s hs (by decide) h0
  have iw := weather_runSerial_inv ws WeatherAdvisory.start w hw (by decide) h0
  refine ⟨?_, ?_, ?_, ?_, ?_, ?_, ?_⟩
  · rw [id.2]
    have := id.1
    omega
  · rw [is.2]
    have := is.1
    omega
  · rw [iw.2]
    have := iw.1
    omega
  · intro o
    cases o <;> exact ⟨rfl, rfl, rfl, rfl⟩
  · intro hnone
    simp [DiseaseDetection.handleSubmit, hnone]
  · intro files objectUrl
    exact handleImageSelect_loading files objectUrl d.view
  · intro hblank
    have h : jsTrim w.view.location = "" := jsTrim_blank _ hblank
    simp [WeatherAdvisory.handleSubmit, h, JSValue.truthy]

/-- C25, witness: a disease request in flight, a soil request answered, a
weather request failed. -/
theorem loading_tracks_outstanding_request_witness :
    DiseaseDetection.runSerial DiseaseDetection.start
      [.selectImage [leafPng] "blob:1", .submit] = some diseaseSubmitted ∧
    SoilRecommendation.runSerial SoilRecommendation.start
      (fillSoilForm ++ [.submit, .settle 0 (.ok soilRice)]) = some soilAnswered ∧
    WeatherAdvisory.runSerial WeatherAdvisory.start
      [.selectCity "Pune", .settle 0 (.error networkError)] = some weatherFailed ∧
    (diseaseSubmitted.view.loading = true ↔ 0 < diseaseSubmitted.pending.length) ∧
    (soilAnswered.view.loading = true ↔ 0 < soilAnswered.pending.length) ∧
    (weatherFailed.view.loading = true ↔ 0 < weatherFailed.pending.length) :=
  ⟨rfl, rfl, rfl,
   (loading_tracks_outstanding_request [.selectImage [leafPng] "blob:1", .submit]
      (fillSoilForm ++
        [SoilRecommendation.Event.submit, SoilRecommendation.Event.settle 0 (.ok soilRice)])
      [.selectCity "Pune", .settle 0 (.error networkError)]
      diseaseSubmitted soilAnswered weatherFailed rfl rfl rfl).1,
   (loading_tracks_outstanding_request [.selectImage [leafPng] "blob:1", .submit]
      (fillSoilForm ++
        [SoilRecommendation.Event.submit, SoilRecommendation.Event.settle 0 (.ok soilRice)])
      [.selectCity "Pune", .settle 0 (.error networkError)]
      diseaseSubmitted soilAnswered weatherFailed rfl rfl rfl).2.1,
   (loading_tracks_outstanding_request [.selectImage [leafPng] "blob:1", .submit]
      (fillSoilForm ++
        [SoilRecommendation.Event.submit, SoilRecommendation.Event.settle 0 (.ok soilRice)])
      [.selectCity "Pune", .settle 0 (.error networkError)]
      diseaseSubmitted soilAnswered weatherFailed rfl rfl rfl).2.2.1⟩

end SmartAgri
